import Mathlib

/-!
Verification of the CSS-to-Tailwind converter (`src/app/page.tsx`, the
variant with the class merger).  The pipeline
`parseCSS → toTailwind → applyPrefixes → mergeClasses` is shallowly
embedded over `List Char` (JS strings, ASCII-faithful), with JS `Record`
objects embedded as association lists (own-property lookup).
-/

/-- JS strings are modelled as lists of characters. -/
abbrev Str := List Char

/-- The single-quote character (written via its code point). -/
def squote : Char := Char.ofNat 39

/-- The double-quote character (written via its code point). -/
def dquote : Char := Char.ofNat 34

/-- Characters matched by the JS regex class `\s` (the ones that can
realistically occur here; JS additionally counts some exotic Unicode
spaces). -/
def isWs (c : Char) : Bool :=
  c == ' ' || c == '\t' || c == '\n' || c == '\r' || c == '\x0b' ||
  c == '\x0c' || c == '\u00A0' || c == '\u2028' || c == '\u2029' ||
  c == '\uFEFF'

/-- JS line terminators: characters NOT matched by `.` in a JS regex. -/
def isLineTerm (c : Char) : Bool :=
  c == '\n' || c == '\r' || c == '\u2028' || c == '\u2029'

/-- Characters matched by `[a-zA-Z-]` (CSS property names). -/
def propChar (c : Char) : Bool := c.isAlpha || c == '-'

/-- Drop leading JS whitespace. -/
def trimL (l : Str) : Str := l.dropWhile isWs

/-- Drop trailing JS whitespace. -/
def trimR (l : Str) : Str := (l.reverse.dropWhile isWs).reverse

/-- JS `String.prototype.trim`. -/
def jsTrim (l : Str) : Str := trimR (trimL l)

/-- Split on every occurrence of a single character, keeping empty
pieces (JS `str.split("c")`; `"".split("c") = [""]`). -/
def splitOnChar (sep : Char) : Str → List Str
  | [] => [[]]
  | c :: rest =>
    if c = sep then [] :: splitOnChar sep rest
    else
      match splitOnChar sep rest with
      | [] => [[c]]
      | t :: ts => (c :: t) :: ts

/-- Prepend a character to the first piece of a split result. -/
def consHead (c : Char) : List Str → List Str
  | [] => [[c]]
  | t :: ts => (c :: t) :: ts

/-- Worker for `jsSplitWs`.  The flag records whether we are inside a
whitespace run (in which case further whitespace extends the same run
instead of opening a new piece). -/
def splitWsF : Bool → Str → List Str
  | _, [] => [[]]
  | false, c :: r =>
    if isWs c then [] :: splitWsF true r else consHead c (splitWsF false r)
  | true, c :: r =>
    if isWs c then splitWsF true r else consHead c (splitWsF false r)

/-- JS `str.split(/\s+/)`: split on maximal whitespace runs; a leading
run yields an empty first piece and a trailing run an empty last piece;
`"".split(/\s+/) = [""]`. -/
def jsSplitWs (l : Str) : List Str := splitWsF false l

/-- JS `str.replace(pat, repl)` with a plain-string pattern: replace the
first occurrence only (no occurrence: unchanged).  JS dollar-patterns
in the replacement string are not modelled; the converter only splices
marker-tagged dictionary values and fallback text here. -/
def jsReplaceFirst : Str → Str → Str → Str
  | [], pat, repl => if pat = [] then repl else []
  | c :: rest, pat, repl =>
    if pat.isPrefixOf (c :: rest) then repl ++ (c :: rest).drop pat.length
    else c :: jsReplaceFirst rest pat repl

/-- `fallback.replace(/^["']|["']$/g, "")`: strip one leading quote if
present, then one trailing quote from the remainder. -/
def stripQuotes (l : Str) : Str :=
  let l1 :=
    match l with
    | c :: r => if c = dquote ∨ c = squote then r else c :: r
    | [] => []
  match l1.getLast? with
  | some c => if c = dquote ∨ c = squote then l1.dropLast else l1
  | none => l1

/-! ## Dictionary store and `var()` resolution (parseCSS, lines 816-859) -/

/-- The variable dictionary: CSS custom-property name to Tailwind value.
JS object, embedded as an association list (first binding wins). -/
abbrev Dict := List (Str × Str)

/-- `varDict[name]` used in a boolean position: a present-but-empty
value is falsy in JS, so it behaves as absent. -/
def dictTruthy (d : Dict) (k : Str) : Option Str :=
  match d.lookup k with
  | some v => if v = [] then none else some v
  | none => none

/-- The internal from-dictionary marker, `"__DICT__"`. -/
def dictMarker : Str := ("__DICT__".data)

/-- Try to match `var\(([^,]+),\s*([^)]+)\)` at the start of `l`.
Returns (name capture, fallback capture, whole match, rest of input).
`[^,]+` and `[^)]+` are greedy with the usual one-step backtracking of
`\s*` when the fallback would otherwise be empty. -/
def matchVarHere (l : Str) : Option (Str × Str × Str × Str) :=
  if ("var(".data).isPrefixOf l then
    let t1 := l.drop 4
    let nm := t1.takeWhile (fun c => c != ',')
    if nm = [] then none else
    match t1.dropWhile (fun c => c != ',') with
    | c1 :: t2 =>
      if c1 = ',' then
        let w := t2.takeWhile isWs
        let t3 := t2.dropWhile isWs
        let fb := t3.takeWhile (fun c => c != ')')
        match t3.dropWhile (fun c => c != ')') with
        | c2 :: t4 =>
          if c2 = ')' then
            if fb = [] then
              -- `[^)]+` needs at least one character: `\s*` gives one back
              match w.getLast? with
              | some wc =>
                some (nm, [wc],
                  ("var(".data) ++ nm ++ [','] ++ w ++ [')'], t4)
              | none => none
            else
              some (nm, fb,
                ("var(".data) ++ nm ++ [','] ++ w ++ fb ++ [')'], t4)
          else none
        | [] => none
      else none
    | [] => none
  else none

/-- Leftmost match of the `var()` regex: returns (text before the
match, name, fallback, whole match, rest after the match). -/
def findVar : Str → Option (Str × Str × Str × Str × Str)
  | [] => none
  | c :: rest =>
    match matchVarHere (c :: rest) with
    | some (nm, fb, m, rst) => some ([], nm, fb, m, rst)
    | none =>
      match findVar rest with
      | some (pre, nm, fb, m, rst) => some (c :: pre, nm, fb, m, rst)
      | none => none

/-- All matches of the global `var()` regex over a value, in order
(the `while ((varMatch = varRegex.exec(value)))` loop, which continues
scanning after each match).  Fuel-indexed; each match consumes at least
one character, so `l.length + 1` fuel suffices. -/
def collectVar : Nat → Str → List (Str × Str × Str)
  | 0, _ => []
  | fuel + 1, l =>
    match findVar l with
    | some (_, nm, fb, m, rst) => (nm, fb, m) :: collectVar fuel rst
    | none => []

/-- All `var()` matches of a declaration value. -/
def collectVars (l : Str) : List (Str × Str × Str) :=
  collectVar (l.length + 1) l

/-- The replacement text for one `var()` occurrence: the dictionary
value tagged with the marker when the trimmed name is (truthily)
present, else the trimmed fallback with one layer of quotes stripped. -/
def resolveRepl (d : Dict) (nm fb : Str) : Str :=
  match dictTruthy d (jsTrim nm) with
  | some v => dictMarker ++ v
  | none => stripQuotes (jsTrim fb)

/-- Resolve every `var()` reference in a declaration value: for each
match of the global regex (scanned over the original value), replace
its first occurrence in the accumulated value. -/
def resolveVars (d : Dict) (value : Str) : Str :=
  (collectVars value).foldl
    (fun acc m => jsReplaceFirst acc m.2.2 (resolveRepl d m.1 m.2.1)) value

/-! ## Declaration parser (parseCSS, lines 816-859) -/

/-- Match one trimmed line against `/^([a-zA-Z-]+)\s*:\s*(.*?);$/`:
the property is the maximal nonempty run of letters/hyphens, optional
whitespace, a colon, optional whitespace, then the value, whose final
character must be `;` ending the line.  `.` does not match JS line
terminators, so a value containing one fails the regex. -/
def matchDecl (l : Str) : Option (Str × Str) :=
  if l.takeWhile propChar = [] then none else
  match (l.dropWhile propChar).dropWhile isWs with
  | [] => none
  | c :: r3 =>
    if c = ':' then
      match (r3.dropWhile isWs).getLast? with
      | some e =>
        if e = ';' then
          if ((r3.dropWhile isWs).dropLast).any isLineTerm then none
          else some (l.takeWhile propChar, (r3.dropWhile isWs).dropLast)
        else none
      | none => none
    else none

/-- A parsed declaration set: property → resolved value.  JS object,
embedded as an association list where the most recent binding is first. -/
abbrev CssObj := List (Str × Str)

/-- `obj[prop] = value` (later assignments shadow earlier ones). -/
def setK (o : CssObj) (k v : Str) : CssObj := (k, v) :: o

/-- `obj[prop]` as a plain lookup. -/
def getK (o : CssObj) (k : Str) : Option Str := o.lookup k

/-- `if (cssObj[prop])`: an empty-string value is falsy. -/
def getT (o : CssObj) (k : Str) : Option Str :=
  match getK o k with
  | some v => if v = [] then none else some v
  | none => none

/-- The lines considered by `parseCSS`: split the raw text on newlines,
trim each line, drop blank lines. -/
def cssLines (css : Str) : List Str :=
  ((splitOnChar '\n' css).map jsTrim).filter (fun l => l ≠ [])

/-- `parseCSS`: parse each line, resolve `var()` references against the
dictionary, store property → processed value (later lines overwrite). -/
def parseCSS (d : Dict) (css : Str) : CssObj :=
  (cssLines css).foldl
    (fun o line =>
      match matchDecl line with
      | some (p, v) => setK o p (resolveVars d v)
      | none => o) []

/-! ## Utility mapper (toTailwind, lines 289-603) -/

/-- `const px = (v) => v.replace("px", "")` (first occurrence only). -/
def pxStrip (v : Str) : Str := jsReplaceFirst v ("px".data) []

/-- `value.replace("__DICT__", "")`. -/
def stripDict (v : Str) : Str := jsReplaceFirst v dictMarker []

/-- Font weight lookup table. -/
def fontWeightMap : List (Str × Str) :=
  [(("100".data), ("thin".data)), (("200".data), ("extralight".data)),
   (("300".data), ("light".data)), (("400".data), ("normal".data)),
   (("500".data), ("medium".data)), (("600".data), ("semibold".data)),
   (("700".data), ("bold".data)), (("800".data), ("extrabold".data)),
   (("900".data), ("black".data))]

/-- Font size lookup table (px value to Tailwind size token). -/
def fontSizeMap : List (Str × Str) :=
  [(("12".data), ("xs".data)), (("14".data), ("sm".data)),
   (("16".data), ("base".data)), (("18".data), ("lg".data)),
   (("20".data), ("xl".data)), (("24".data), ("2xl".data)),
   (("30".data), ("3xl".data)), (("36".data), ("4xl".data)),
   (("48".data), ("5xl".data)), (("60".data), ("6xl".data)),
   (("72".data), ("7xl".data)), (("96".data), ("8xl".data)),
   (("128".data), ("9xl".data))]

/-- Line height lookup table. -/
def lineHeightMap : List (Str × Str) :=
  [(("1".data), ("none".data)), (("1.25".data), ("tight".data)),
   (("1.5".data), ("snug".data)), (("1.75".data), ("normal".data)),
   (("2".data), ("relaxed".data)), (("2.25".data), ("loose".data))]

/-- Letter spacing lookup table. -/
def letterSpacingMap : List (Str × Str) :=
  [(("-0.05em".data), ("tighter".data)), (("-0.025em".data), ("tight".data)),
   (("0em".data), ("normal".data)), (("0.025em".data), ("wide".data)),
   (("0.05em".data), ("wider".data)), (("0.1em".data), ("widest".data))]

/-- Text decoration style lookup table. -/
def textDecorationStyleMap : List (Str × Str) :=
  [(("solid".data), ("solid".data)), (("double".data), ("double".data)),
   (("dotted".data), ("dotted".data)), (("dashed".data), ("dashed".data)),
   (("wavy".data), ("wavy".data))]

/-- `if (cssObj[k]) { tw.push(f(value)) }` as a list section. -/
def emit (o : CssObj) (k : Str) (f : Str → List Str) : List Str :=
  match getT o k with
  | some v => f v
  | none => []

def colorClasses (o : CssObj) : List Str :=
  emit o ("color".data) fun v =>
    if dictMarker.isPrefixOf v then
      [("text-[".data) ++ stripDict v ++ ("]".data)]
    else [("text-[".data) ++ v ++ ("]".data)]

def textAlignClasses (o : CssObj) : List Str :=
  emit o ("text-align".data) fun v => [("text-".data) ++ v]

def decorationLineClasses (o : CssObj) : List Str :=
  emit o ("text-decoration-line".data) fun v =>
    if v = ("underline".data) then [("underline".data)]
    else if v = ("line-through".data) then [("line-through".data)]
    else if v = ("overline".data) then [("overline".data)]
    else if v = ("none".data) then [("no-underline".data)]
    else [("decoration-[".data) ++ v ++ ("]".data)]

def decorationStyleClasses (o : CssObj) : List Str :=
  emit o ("text-decoration-style".data) fun v =>
    if v = ("solid".data) then []
    else
      match textDecorationStyleMap.lookup v with
      | some m => [("decoration-".data) ++ m]
      | none => [("decoration-[".data) ++ v ++ ("]".data)]

def skipInkClasses (o : CssObj) : List Str :=
  emit o ("text-decoration-skip-ink".data) fun v =>
    if v = ("auto".data) then [("decoration-skip-ink".data)]
    else if v = ("none".data) then [("decoration-skip-ink-none".data)]
    else [("decoration-skip-ink-[".data) ++ v ++ ("]".data)]

def thicknessClasses (o : CssObj) : List Str :=
  emit o ("text-decoration-thickness".data) fun v =>
    if v = ("auto".data) then []
    else if v = ("1px".data) ∨ v = ("thin".data) then [("decoration-1".data)]
    else if v = ("2px".data) ∨ v = ("medium".data) then [("decoration-2".data)]
    else if v = ("4px".data) ∨ v = ("thick".data) then [("decoration-4".data)]
    else [("[text-decoration-thickness:".data) ++ v ++ ("]".data)]

def underlineOffsetClasses (o : CssObj) : List Str :=
  emit o ("text-underline-offset".data) fun v =>
    if v = ("auto".data) then []
    else [("underline-offset-[".data) ++ v ++ ("]".data)]

def underlinePositionClasses (o : CssObj) : List Str :=
  emit o ("text-underline-position".data) fun v =>
    if v = ("auto".data) then []
    else if v = ("from-font".data) then []
    else [("[text-underline-position:".data) ++ v ++ ("]".data)]

def fontSizeClasses (o : CssObj) : List Str :=
  emit o ("font-size".data) fun v =>
    let sizePx := pxStrip v
    match fontSizeMap.lookup sizePx with
    | some m => [("text-".data) ++ m]
    | none => [("text-[".data) ++ sizePx ++ ("px]".data)]

def fontWeightClasses (o : CssObj) : List Str :=
  emit o ("font-weight".data) fun v =>
    match fontWeightMap.lookup v with
    | some m => [("font-".data) ++ m]
    | none => [("font-[".data) ++ v ++ ("]".data)]

def lineHeightClasses (o : CssObj) : List Str :=
  emit o ("line-height".data) fun v =>
    match lineHeightMap.lookup v with
    | some m => [("leading-".data) ++ m]
    | none => [("leading-[".data) ++ v ++ ("]".data)]

def letterSpacingClasses (o : CssObj) : List Str :=
  emit o ("letter-spacing".data) fun v =>
    match letterSpacingMap.lookup v with
    | some m => [("tracking-".data) ++ m]
    | none => [("tracking-[".data) ++ v ++ ("]".data)]

def fontFamilyClasses (o : CssObj) : List Str :=
  emit o ("font-family".data) fun v =>
    if dictMarker.isPrefixOf v then
      let dv := stripDict v
      if ("font-".data).isPrefixOf dv then [dv]
      else [("font-".data) ++ dv]
    else [("font-[".data) ++ v ++ ("]".data)]

def fontStyleClasses (o : CssObj) : List Str :=
  emit o ("font-style".data) fun v =>
    if v = ("italic".data) then [("italic".data)]
    else if v = ("normal".data) then [("not-italic".data)]
    else [("font-[".data) ++ v ++ ("]".data)]

/-- The spacing table, in source (insertion) order. -/
def spacingPairs : List (Str × Str) :=
  [(("margin".data), ("m".data)), (("margin-top".data), ("mt".data)),
   (("margin-bottom".data), ("mb".data)), (("margin-left".data), ("ml".data)),
   (("margin-right".data), ("mr".data)), (("padding".data), ("p".data)),
   (("padding-top".data), ("pt".data)), (("padding-bottom".data), ("pb".data)),
   (("padding-left".data), ("pl".data)), (("padding-right".data), ("pr".data))]

def spacingClasses (o : CssObj) : List Str :=
  (spacingPairs.map fun kv =>
    emit o kv.1 fun v => [kv.2 ++ ("-[".data) ++ v ++ ("]".data)]).flatten

def widthClasses (o : CssObj) : List Str :=
  emit o ("width".data) fun v => [("w-[".data) ++ v ++ ("]".data)]

def heightClasses (o : CssObj) : List Str :=
  emit o ("height".data) fun v => [("h-[".data) ++ v ++ ("]".data)]

def radiusClasses (o : CssObj) : List Str :=
  emit o ("border-radius".data) fun v =>
    if v = ("4px".data) ∨ v = ("0.25rem".data) then [("rounded".data)]
    else [("rounded-[".data) ++ v ++ ("]".data)]

/-- The border side table, in source order. -/
def borderSides : List (Str × Str) :=
  [(("border".data), ("border".data)), (("border-top".data), ("border-t".data)),
   (("border-bottom".data), ("border-b".data)),
   (("border-left".data), ("border-l".data)),
   (("border-right".data), ("border-r".data))]

/-- Process one border side value: emit the width / style / color
classes and update the running set of seen styles. -/
def borderOne (twPfx : Str) (v : Str) (styles : List Str) :
    List Str × List Str :=
  let parts := jsSplitWs (jsTrim v)
  let width := parts.getD 0 []
  let widthCls :=
    if width ≠ [] ∧ width ≠ ("0".data) ∧ width ≠ ("0px".data) then
      if width = ("1px".data) ∨ width = ("0.0625rem".data) then [twPfx]
      else [twPfx ++ ("-[".data) ++ width ++ ("]".data)]
    else []
  let style := parts.getD 1 []
  let styleHit :=
    2 ≤ parts.length ∧ style ≠ [] ∧ style ≠ ("none".data) ∧ style ∉ styles
  let styleCls := if styleHit then [("border-".data) ++ style] else []
  let styles2 := if styleHit then styles ++ [style] else styles
  let colorCls :=
    if 3 ≤ parts.length then
      let color := List.intercalate (" ".data) (parts.drop 2)
      if color ≠ [] ∧ color ≠ ("transparent".data) then
        if dictMarker.isPrefixOf color then
          [twPfx ++ ("-[".data) ++ stripDict color ++ ("]".data)]
        else [twPfx ++ ("-[".data) ++ color ++ ("]".data)]
      else []
    else []
  (widthCls ++ styleCls ++ colorCls, styles2)

/-- Fold over the five border sides, threading the style set. -/
def borderStep (o : CssObj) (acc : List Str × List Str) (side : Str × Str) :
    List Str × List Str :=
  match getT o side.1 with
  | some v =>
    let r := borderOne side.2 v acc.2
    (acc.1 ++ r.1, r.2)
  | none => acc

def borderClasses (o : CssObj) : List Str :=
  (borderSides.foldl (borderStep o) ([], [])).1

def bgClasses (o : CssObj) : List Str :=
  emit o ("background-color".data) fun v =>
    if dictMarker.isPrefixOf v then
      [("bg-[".data) ++ stripDict v ++ ("]".data)]
    else [("bg-[".data) ++ v ++ ("]".data)]

def opacityClasses (o : CssObj) : List Str :=
  emit o ("opacity".data) fun v => [("opacity-[".data) ++ v ++ ("]".data)]

def shadowClasses (o : CssObj) : List Str :=
  emit o ("box-shadow".data) fun v => [("shadow-[".data) ++ v ++ ("]".data)]

/-- `toTailwind`: the full mapper, sections concatenated in source
order. -/
def toTailwind (o : CssObj) : List Str :=
  colorClasses o ++ textAlignClasses o ++ decorationLineClasses o ++
  decorationStyleClasses o ++ skipInkClasses o ++ thicknessClasses o ++
  underlineOffsetClasses o ++ underlinePositionClasses o ++
  fontSizeClasses o ++ fontWeightClasses o ++ lineHeightClasses o ++
  letterSpacingClasses o ++ fontFamilyClasses o ++ fontStyleClasses o ++
  spacingClasses o ++ widthClasses o ++ heightClasses o ++
  radiusClasses o ++ borderClasses o ++ bgClasses o ++
  opacityClasses o ++ shadowClasses o

/-! ## Prefix applier (applyPrefixes, lines 605-611) -/

/-- `p.replace(/:$/, "") + ":"`: strip one trailing colon, append one. -/
def normPfx (p : Str) : Str :=
  (if p.getLast? = some ':' then p.dropLast else p) ++ [':']

/-- `applyPrefixes`: blank prefix string emits the classes joined; else
every class is cross-multiplied with every (normalized) prefix. -/
def applyPrefixes (classes : List Str) (pfxStr : Str) : Str :=
  if jsTrim pfxStr = [] then List.intercalate (" ".data) classes
  else
    let px := (jsSplitWs pfxStr).map normPfx
    List.intercalate (" ".data)
      (classes.map fun cls =>
        List.intercalate (" ".data) (px.map fun p => p ++ cls))

/-! ## Class classification (getClassPropertyType, lines 614-717) -/

/-- `className.split(":")[1]` when the class contains a colon (note:
this is the piece between the first and second colon), else the class
itself.  Also used by the merger to strip prefixes. -/
def cleanOf (c : Str) : Str :=
  if c.contains ':' then (splitOnChar ':' c).getD 1 [] else c

/-- The exact font-size token classes `text-xs` … `text-9xl`. -/
def sizeTokenClasses : List Str :=
  [("text-xs".data), ("text-sm".data), ("text-base".data), ("text-lg".data),
   ("text-xl".data), ("text-2xl".data), ("text-3xl".data), ("text-4xl".data),
   ("text-5xl".data), ("text-6xl".data), ("text-7xl".data),
   ("text-8xl".data), ("text-9xl".data)]

/-- The regex `/(px|rem|em)\]$/`. -/
def unitEnd (c : Str) : Bool :=
  ("px]".data).isSuffixOf c || ("rem]".data).isSuffixOf c ||
  ("em]".data).isSuffixOf c

/-- The regex `/^font-\[\d+\]$/`. -/
def fontBracketDigits (c : Str) : Bool :=
  ("font-[".data).isPrefixOf c &&
    (let r := c.drop 6
     r.getLast? = some ']' && r.dropLast ≠ [] && r.dropLast.all Char.isDigit)

/-- The Tailwind palette names of the color regex. -/
def colorNames : List Str :=
  [("red".data), ("blue".data), ("green".data), ("yellow".data),
   ("purple".data), ("pink".data), ("indigo".data), ("gray".data),
   ("slate".data), ("zinc".data), ("neutral".data), ("stone".data),
   ("amber".data), ("orange".data), ("lime".data), ("emerald".data),
   ("teal".data), ("cyan".data), ("sky".data), ("violet".data),
   ("fuchsia".data), ("rose".data)]

/-- The regex `/^text-(red|…|rose)-\d+$/`. -/
def namedColor (c : Str) : Bool :=
  colorNames.any fun cn =>
    let pre := ("text-".data) ++ cn ++ ("-".data)
    pre.isPrefixOf c &&
      (let ds := c.drop pre.length
       ds ≠ [] && ds.all Char.isDigit)

/-- The alternatives of the spacing regex `^(m|mt|mb|ml|mr|mx|my|p|pt|pb|pl|pr|px|py)` (each followed by a hyphen). -/
def spacingStarts : List Str :=
  [("m".data), ("mt".data), ("mb".data), ("ml".data), ("mr".data),
   ("mx".data), ("my".data), ("p".data), ("pt".data), ("pb".data),
   ("pl".data), ("pr".data), ("px".data), ("py".data)]

def spacingStart (c : Str) : Bool :=
  spacingStarts.any fun p => (p ++ ("-".data)).isPrefixOf c

/-- `getClassPropertyType`: structural classification of a class name
into a property category, or `none` when unclassified. -/
def getClassPropertyType (className : Str) : Option Str :=
  let c := cleanOf className
  if c ∈ sizeTokenClasses then some ("font-size".data)
  else if ("text-[".data).isPrefixOf c ∧ unitEnd c then
    some ("font-size".data)
  else if ("font-".data).isPrefixOf c ∧ ¬ ("font-[".data).isPrefixOf c ∧
      c ≠ ("font-italic".data) ∧ c ≠ ("font-not-italic".data) then
    some ("font-weight".data)
  else if ("font-[".data).isPrefixOf c ∧ fontBracketDigits c then
    some ("font-weight".data)
  else if c = ("italic".data) ∨ c = ("not-italic".data) then
    some ("font-style".data)
  else if ("leading-".data).isPrefixOf c then some ("line-height".data)
  else if ("tracking-".data).isPrefixOf c then some ("letter-spacing".data)
  else if ("underline".data).isPrefixOf c ∨
      ("line-through".data).isPrefixOf c ∨
      ("overline".data).isPrefixOf c ∨
      ("no-underline".data).isPrefixOf c ∨
      ("decoration-".data).isPrefixOf c then
    some ("text-decoration".data)
  else if c = ("text-white".data) ∨ c = ("text-black".data) ∨ namedColor c then
    some ("color".data)
  else if ("text-[".data).isPrefixOf c ∧ ¬ unitEnd c then some ("color".data)
  else if ("bg-".data).isPrefixOf c then some ("background-color".data)
  else if ("border".data).isPrefixOf c ∧
      ¬ ("border-radius".data).isPrefixOf c then
    some ("border".data)
  else if ("rounded".data).isPrefixOf c then some ("border-radius".data)
  else if ("w-".data).isPrefixOf c then some ("width".data)
  else if ("h-".data).isPrefixOf c then some ("height".data)
  else if ("opacity-".data).isPrefixOf c then some ("opacity".data)
  else if ("shadow-".data).isPrefixOf c then some ("box-shadow".data)
  else if spacingStart c then some ("spacing".data)
  else none

/-! ## Class merger (mergeClasses, lines 720-786) -/

/-- `className.includes(":")`. -/
def hasPfx (c : Str) : Bool := c.contains ':'

/-- The `existingByProperty` map: category → class, where a later
same-category existing class overwrites an earlier one (`Map.set`).
Embedded as an association list with the most recent binding first.
(The source also collects unclassified classes into `existingOther`,
which it never reads.) -/
def buildByProp (E : List Str) : List (Str × Str) :=
  E.foldl
    (fun m cls =>
      match getClassPropertyType cls with
      | some t => (t, cls) :: m
      | none => m) []

/-- The body of the merge loop: append `newClass` unless it is
suppressed by the same-category entry of `existingByProperty` (or, for
unclassified classes, by literal membership in the existing list). -/
def mergeStep (E : List Str) (ebp : List (Str × Str))
    (merged : List Str) (newClass : Str) : List Str :=
  match getClassPropertyType newClass with
  | some t =>
    match ebp.lookup t with
    | some ex =>
      if hasPfx newClass ≠ hasPfx ex then merged ++ [newClass]
      else if cleanOf newClass ≠ cleanOf ex then merged ++ [newClass]
      else merged
    | none => merged ++ [newClass]
  | none =>
    if newClass ∈ E then merged else merged ++ [newClass]

/-- `mergeClasses`: start from the existing classes and append each new
class unless it is suppressed by the same-category existing class. -/
def mergeClasses (E N : List Str) : List Str :=
  N.foldl (mergeStep E (buildByProp E)) E

/-! ## Full pipeline (output useMemo, lines 861-882) -/

/-- `.split(/\s+/).map(c => c.trim()).filter(Boolean)`. -/
def wsTokensOf (s : Str) : List Str :=
  ((jsSplitWs s).map jsTrim).filter (fun c => c ≠ [])

/-- The rendered output: parse, map, prefix, split back into classes,
merge with the existing class list, join with spaces. -/
def output (d : Dict) (css pfxStr existing : Str) : Str :=
  let parsed := parseCSS d css
  let tw := toTailwind parsed
  let withPxStr := applyPrefixes tw pfxStr
  let existingList := wsTokensOf existing
  let newList := wsTokensOf withPxStr
  List.intercalate (" ".data) (mergeClasses existingList newList)

/-! ## Declarative characterization of the merger -/

/-- The last existing class of a given category, in existing-list
order.  This is what `existingByProperty.get` returns, since `Map.set`
lets later same-category classes overwrite earlier ones. -/
def lastOfCat (E : List Str) (t : Str) : Option Str :=
  (E.filter (fun e => getClassPropertyType e = some t)).getLast?

/-- Whether the merger appends a given new class, stated against the
last same-category existing class only. -/
def keptByLast (E : List Str) (c : Str) : Bool :=
  match getClassPropertyType c with
  | some t =>
    match lastOfCat E t with
    | some ex =>
      if hasPfx c ≠ hasPfx ex then true
      else if cleanOf c ≠ cleanOf ex then true
      else false
    | none => true
  | none => if c ∈ E then false else true

theorem buildByProp_lookup (E : List Str) (t : Str) :
    (buildByProp E).lookup t = lastOfCat E t := by
  induction E using List.reverseRecOn with
  | nil => simp [buildByProp, lastOfCat]
  | append_singleton E c ih =>
    unfold buildByProp lastOfCat at *
    rw [List.foldl_append, List.filter_append]
    cases h : getClassPropertyType c with
    | none => simp [h, ih]
    | some t' =>
      by_cases ht : t = t'
      · subst ht
        simp [h, List.lookup, List.getLast?_concat]
      · have hb : ((t == t') = false) := by simpa using ht
        have ht2 : ¬(t' = t) := fun hh => ht hh.symm
        simp [h, List.lookup, hb, ih, ht, ht2]

theorem mergeStep_eq (E : List Str) (acc : List Str) (c : Str) :
    mergeStep E (buildByProp E) acc c =
      acc ++ (if keptByLast E c then [c] else []) := by
  unfold mergeStep keptByLast
  simp only [buildByProp_lookup]
  cases h : getClassPropertyType c with
  | none =>
    by_cases hm : c ∈ E <;> simp [hm]
  | some t =>
    cases hl : lastOfCat E t with
    | none => simp [hl]
    | some ex =>
      by_cases h1 : hasPfx c ≠ hasPfx ex
      · simp [hl, h1]
      · by_cases h2 : cleanOf c ≠ cleanOf ex <;> simp [hl, h1, h2]

theorem mergeClasses_spec (E N : List Str) :
    mergeClasses E N = E ++ N.filter (fun c => keptByLast E c) := by
  unfold mergeClasses
  suffices h : ∀ acc : List Str,
      N.foldl (mergeStep E (buildByProp E)) acc =
        acc ++ N.filter (fun c => keptByLast E c) from h E
  induction N with
  | nil => intro acc; simp
  | cons c N ih =>
    intro acc
    rw [List.foldl_cons, mergeStep_eq, ih, List.filter_cons]
    by_cases hk : keptByLast E c <;> simp [hk]

/-- Every class of the list agrees, in prefix status and
prefix-stripped form, with the last same-category class of the list
(trivially true for unclassified classes). -/
def selfStable (L : List Str) : Bool :=
  L.all fun c =>
    match getClassPropertyType c with
    | some t =>
      match lastOfCat L t with
      | some ex => (hasPfx c == hasPfx ex) && (cleanOf c == cleanOf ex)
      | none => false
    | none => true

/-- C8: merging never removes or modifies existing classes: the result
begins with the existing list, unchanged and in order. -/
theorem merge_preserves_existing (E N : List Str) :
    ∃ L, mergeClasses E N = E ++ L :=
  ⟨N.filter (fun c => keptByLast E c), mergeClasses_spec E N⟩

/-- C10: the merger's conflict decision for each new class consults
only the LAST existing class of that class's category (`lastOfCat`);
earlier same-category existing classes are ignored. -/
theorem merge_conflict_uses_last_only (E N : List Str) :
    mergeClasses E N = E ++ N.filter (fun c => keptByLast E c) :=
  mergeClasses_spec E N

/-- C2 (counterexample): the class list generated by the pipeline from
`border: 1px solid #fff;` (no prefixes) contains three classes of the
same `border` category; merging it into itself appends two of them
again, even though no class carries a prefix. -/
theorem merge_self_counterexample :
    (∀ c ∈ wsTokensOf (applyPrefixes
        (toTailwind (parseCSS [] (("border: 1px solid #fff;").data))) []),
      hasPfx c = false) ∧
    mergeClasses
        (wsTokensOf (applyPrefixes
          (toTailwind (parseCSS [] (("border: 1px solid #fff;").data))) []))
        (wsTokensOf (applyPrefixes
          (toTailwind (parseCSS [] (("border: 1px solid #fff;").data))) [])) ≠
      wsTokensOf (applyPrefixes
        (toTailwind (parseCSS [] (("border: 1px solid #fff;").data))) []) := by
  constructor
  · decide
  · decide

/-- C2 (amended): merging a generated class list into itself yields the
list unchanged provided every class agrees (same prefix status, same
prefix-stripped form) with the last same-category class of the list —
in particular whenever no two classes share a property category. -/
theorem merge_self_identity (L : List Str) (h : selfStable L = true) :
    mergeClasses L L = L := by
  rw [mergeClasses_spec]
  have hf : L.filter (fun c => keptByLast L c) = [] := by
    rw [List.filter_eq_nil_iff]
    intro c hc
    have hall := (List.all_eq_true.mp h) c hc
    unfold keptByLast
    cases hcat : getClassPropertyType c with
    | none => simp [hc]
    | some t =>
      rw [hcat] at hall
      cases hl : lastOfCat L t with
      | none => simp [hl] at hall
      | some ex =>
        simp only [hl, Bool.and_eq_true, beq_iff_eq] at hall
        simp [hl, hall.1, hall.2]
  rw [hf, List.append_nil]

theorem merge_self_identity_witness :
    selfStable [(("text-[#272727]").data), (("text-base").data)] = true ∧
      mergeClasses [(("text-[#272727]").data), (("text-base").data)]
        [(("text-[#272727]").data), (("text-base").data)] =
        [(("text-[#272727]").data), (("text-base").data)] :=
  ⟨by decide, merge_self_identity _ (by decide)⟩

/-- C1: end-to-end, the documented example input with an empty
dictionary, empty prefix string and empty existing-class list renders
exactly `text-[#272727] text-base` (color class first). -/
theorem pipeline_example :
    output []
        (("color: var(--Heading-Font, #272727);\nfont-size: 16px;").data)
        [] [] =
      (("text-[#272727] text-base").data) := by
  decide

/-- C5: scale lookups are exact-match only, with default values
suppressed into the bare token: font-weight 400 hits the table
(`font-normal`) while 450 falls back to the bracket form, and
border-radius 4px collapses to `rounded` while 8px stays arbitrary. -/
theorem scale_lookups_exact :
    toTailwind [((("font-weight").data), (("400").data))] =
        [(("font-normal").data)] ∧
      toTailwind [((("font-weight").data), (("450").data))] =
        [(("font-[450]").data)] ∧
      toTailwind [((("border-radius").data), (("4px").data))] =
        [(("rounded").data)] ∧
      toTailwind [((("border-radius").data), (("8px").data))] =
        [(("rounded-[8px]").data)] := by
  refine ⟨by decide, by decide, by decide, by decide⟩

/-! ## Prefix applier: characterization -/

/-- The whitespace-separated prefixes of a prefix string, in order
(the nonempty pieces of the JS split). -/
def wsPieces (l : Str) : List Str :=
  (jsSplitWs l).filter (fun t => t ≠ [])

theorem consHead_ne_nil (c : Char) (res : List Str) : consHead c res ≠ [] := by
  cases res <;> simp [consHead]

theorem splitWsF_ne_nil (l : Str) : ∀ mode, splitWsF mode l ≠ [] := by
  induction l with
  | nil => intro mode; cases mode <;> simp [splitWsF]
  | cons c r ih =>
    intro mode
    cases mode <;> cases hws : isWs c <;>
        simp only [splitWsF, hws, Bool.false_eq_true, if_false, if_true]
    · exact consHead_ne_nil c _
    · simp
    · exact consHead_ne_nil c _
    · exact ih true

theorem splitWsF_no_empty (l : Str)
    (hlast : ∀ c, l.getLast? = some c → isWs c = false) :
    ([] ∉ (splitWsF false l).tail) ∧ (l ≠ [] → [] ∉ splitWsF true l) := by
  induction l with
  | nil => simp [splitWsF]
  | cons c r ih =>
    have hlast_r : ∀ c', r.getLast? = some c' → isWs c' = false := by
      intro c' hc'
      apply hlast
      cases r with
      | nil => simp at hc'
      | cons x xs => rw [List.getLast?_cons_cons]; exact hc'
    have ihr := ih hlast_r
    have hr_ne : isWs c = true → r ≠ [] := by
      intro hws hre
      subst hre
      have := hlast c (by simp)
      rw [this] at hws
      exact Bool.false_ne_true hws
    constructor
    · cases hws : isWs c with
      | true =>
        simp only [splitWsF, hws, if_true, List.tail_cons]
        exact ihr.2 (hr_ne hws)
      | false =>
        simp only [splitWsF, hws, Bool.false_eq_true, if_false]
        cases hr : splitWsF false r with
        | nil => exact absurd hr (splitWsF_ne_nil r false)
        | cons t ts =>
          simp only [consHead, List.tail_cons]
          have := ihr.1
          rw [hr] at this
          simpa using this
    · intro _
      cases hws : isWs c with
      | true =>
        simp only [splitWsF, hws, if_true]
        exact ihr.2 (hr_ne hws)
      | false =>
        simp only [splitWsF, hws, Bool.false_eq_true, if_false]
        cases hr : splitWsF false r with
        | nil => exact absurd hr (splitWsF_ne_nil r false)
        | cons t ts =>
          simp only [consHead]
          intro hmem
          rcases List.mem_cons.mp hmem with h1 | h2
          · exact List.cons_ne_nil c t h1.symm
          · have := ihr.1
            rw [hr] at this
            exact this (by simpa using h2)

theorem jsSplitWs_no_empty (l : Str) (hne : l ≠ [])
    (hhead : ∀ c, l.head? = some c → isWs c = false)
    (hlast : ∀ c, l.getLast? = some c → isWs c = false) :
    [] ∉ jsSplitWs l := by
  cases l with
  | nil => exact absurd rfl hne
  | cons c r =>
    have hws : isWs c = false := hhead c (by simp)
    unfold jsSplitWs
    simp only [splitWsF, hws, Bool.false_eq_true, if_false]
    cases hr : splitWsF false r with
    | nil => exact absurd hr (splitWsF_ne_nil r false)
    | cons t ts =>
      simp only [consHead]
      intro hmem
      rcases List.mem_cons.mp hmem with h1 | h2
      · exact List.cons_ne_nil c t h1.symm
      · have := (splitWsF_no_empty (c :: r) hlast).1
        simp only [splitWsF, hws, Bool.false_eq_true, if_false, hr,
          consHead, List.tail_cons] at this
        exact this (by simpa using h2)

theorem jsTrim_eq_self (l : Str)
    (hhead : ∀ c, l.head? = some c → isWs c = false)
    (hlast : ∀ c, l.getLast? = some c → isWs c = false) :
    jsTrim l = l := by
  have h1 : trimL l = l := by
    cases l with
    | nil => rfl
    | cons c r =>
      have := hhead c (by simp)
      simp [trimL, List.dropWhile, this]
  have h2 : trimR l = l := by
    unfold trimR
    cases hr : l.reverse with
    | nil => simp_all
    | cons c r =>
      have hc : l.getLast? = some c := by
        rw [← List.head?_reverse, hr]; rfl
      have := hlast c hc
      simp [List.dropWhile, this, ← hr]
  unfold jsTrim
  rw [h1, h2]

/-- C6 (counterexample): the prefix string `" lg"` (leading space) is
not blank, and its whitespace-separated prefixes are just `lg`, but the
JS split produces an empty leading piece which is normalized to the
bare prefix `":"`, so the output is `":text-sm lg:text-sm"` rather than
the claimed `"lg:text-sm"`. -/
theorem applyPrefixes_counterexample :
    wsPieces ((" lg").data) = [(("lg").data)] ∧
      applyPrefixes [(("text-sm").data)] ((" lg").data) =
        ((":text-sm lg:text-sm").data) ∧
      applyPrefixes [(("text-sm").data)] ((" lg").data) ≠
        (("lg:text-sm").data) := by
  refine ⟨by decide, by decide, by decide⟩

/-- C6 (amended): for prefix strings without leading or trailing
whitespace, each whitespace-separated prefix is normalized (strip one
trailing colon, append one), and the output has, for every class, one
`prefix:class` per prefix in order; a blank prefix string emits the
classes unprefixed. -/
theorem applyPrefixes_spec (classes : List Str) (pstr : Str)
    (hhead : ∀ c, pstr.head? = some c → isWs c = false)
    (hlast : ∀ c, pstr.getLast? = some c → isWs c = false) :
    applyPrefixes classes pstr =
      if pstr = [] then List.intercalate ((" ").data) classes
      else
        List.intercalate ((" ").data)
          (classes.map fun cls =>
            List.intercalate ((" ").data)
              ((wsPieces pstr).map fun p => normPfx p ++ cls)) := by
  by_cases hne : pstr = []
  · subst hne
    simp [applyPrefixes, jsTrim, trimL, trimR]
  · have htrim : jsTrim pstr = pstr := jsTrim_eq_self pstr hhead hlast
    have hpieces : wsPieces pstr = jsSplitWs pstr := by
      unfold wsPieces
      rw [List.filter_eq_self]
      intro p hp
      have := jsSplitWs_no_empty pstr hne hhead hlast
      simp only [ne_eq, decide_eq_true_eq]
      intro hpe
      subst hpe
      exact this hp
    rw [if_neg hne, hpieces]
    unfold applyPrefixes
    rw [htrim, if_neg hne]
    simp only [List.map_map]
    rfl

theorem applyPrefixes_spec_witness :
    applyPrefixes [(("text-sm").data)] (("lg hover").data) =
        (("lg:text-sm hover:text-sm").data) ∧
      applyPrefixes [(("text-sm").data)] [] = (("text-sm").data) := by
  constructor
  · have h := applyPrefixes_spec [(("text-sm").data)] (("lg hover").data)
      (by intro c hc; have hcl : c = 'l' := (by simpa using hc.symm); rw [hcl]; decide)
      (by intro c hc; have hcr : c = 'r' := (by simpa using hc.symm); rw [hcr]; decide)
    rw [h]
    decide
  · have h := applyPrefixes_spec [(("text-sm").data)] []
      (by intro c hc; simp at hc) (by intro c hc; simp at hc)
    rw [h]
    decide

/-! ## Singleton-object reductions of the mapper -/

theorem emit_single_self (k v : Str) (f : Str → List Str) (hv : v ≠ []) :
    emit [(k, v)] k f = f v := by
  simp [emit, getT, getK, List.lookup, hv]

theorem toTailwindSingleFontSize (v : Str) :
    toTailwind [((("font-size").data), v)] =
      fontSizeClasses [((("font-size").data), v)] := by
  simp only [toTailwind,
    show ∀ w : Str, colorClasses [((("font-size").data), w)] = [] from fun w => rfl,
    show ∀ w : Str, textAlignClasses [((("font-size").data), w)] = [] from fun w => rfl,
    show ∀ w : Str, decorationLineClasses [((("font-size").data), w)] = [] from fun w => rfl,
    show ∀ w : Str, decorationStyleClasses [((("font-size").data), w)] = [] from fun w => rfl,
    show ∀ w : Str, skipInkClasses [((("font-size").data), w)] = [] from fun w => rfl,
    show ∀ w : Str, thicknessClasses [((("font-size").data), w)] = [] from fun w => rfl,
    show ∀ w : Str, underlineOffsetClasses [((("font-size").data), w)] = [] from fun w => rfl,
    show ∀ w : Str, underlinePositionClasses [((("font-size").data), w)] = [] from fun w => rfl,
    show ∀ w : Str, fontWeightClasses [((("font-size").data), w)] = [] from fun w => rfl,
    show ∀ w : Str, lineHeightClasses [((("font-size").data), w)] = [] from fun w => rfl,
    show ∀ w : Str, letterSpacingClasses [((("font-size").data), w)] = [] from fun w => rfl,
    show ∀ w : Str, fontFamilyClasses [((("font-size").data), w)] = [] from fun w => rfl,
    show ∀ w : Str, fontStyleClasses [((("font-size").data), w)] = [] from fun w => rfl,
    show ∀ w : Str, spacingClasses [((("font-size").data), w)] = [] from fun w => rfl,
    show ∀ w : Str, widthClasses [((("font-size").data), w)] = [] from fun w => rfl,
    show ∀ w : Str, heightClasses [((("font-size").data), w)] = [] from fun w => rfl,
    show ∀ w : Str, radiusClasses [((("font-size").data), w)] = [] from fun w => rfl,
    show ∀ w : Str, borderClasses [((("font-size").data), w)] = [] from fun w => rfl,
    show ∀ w : Str, bgClasses [((("font-size").data), w)] = [] from fun w => rfl,
    show ∀ w : Str, opacityClasses [((("font-size").data), w)] = [] from fun w => rfl,
    show ∀ w : Str, shadowClasses [((("font-size").data), w)] = [] from fun w => rfl,
    List.nil_append, List.append_nil]

theorem toTailwindSingleFontWeight (v : Str) :
    toTailwind [((("font-weight").data), v)] =
      fontWeightClasses [((("font-weight").data), v)] := by
  simp only [toTailwind,
    show ∀ w : Str, colorClasses [((("font-weight").data), w)] = [] from fun w => rfl,
    show ∀ w : Str, textAlignClasses [((("font-weight").data), w)] = [] from fun w => rfl,
    show ∀ w : Str, decorationLineClasses [((("font-weight").data), w)] = [] from fun w => rfl,
    show ∀ w : Str, decorationStyleClasses [((("font-weight").data), w)] = [] from fun w => rfl,
    show ∀ w : Str, skipInkClasses [((("font-weight").data), w)] = [] from fun w => rfl,
    show ∀ w : Str, thicknessClasses [((("font-weight").data), w)] = [] from fun w => rfl,
    show ∀ w : Str, underlineOffsetClasses [((("font-weight").data), w)] = [] from fun w => rfl,
    show ∀ w : Str, underlinePositionClasses [((("font-weight").data), w)] = [] from fun w => rfl,
    show ∀ w : Str, fontSizeClasses [((("font-weight").data), w)] = [] from fun w => rfl,
    show ∀ w : Str, lineHeightClasses [((("font-weight").data), w)] = [] from fun w => rfl,
    show ∀ w : Str, letterSpacingClasses [((("font-weight").data), w)] = [] from fun w => rfl,
    show ∀ w : Str, fontFamilyClasses [((("font-weight").data), w)] = [] from fun w => rfl,
    show ∀ w : Str, fontStyleClasses [((("font-weight").data), w)] = [] from fun w => rfl,
    show ∀ w : Str, spacingClasses [((("font-weight").data), w)] = [] from fun w => rfl,
    show ∀ w : Str, widthClasses [((("font-weight").data), w)] = [] from fun w => rfl,
    show ∀ w : Str, heightClasses [((("font-weight").data), w)] = [] from fun w => rfl,
    show ∀ w : Str, radiusClasses [((("font-weight").data), w)] = [] from fun w => rfl,
    show ∀ w : Str, borderClasses [((("font-weight").data), w)] = [] from fun w => rfl,
    show ∀ w : Str, bgClasses [((("font-weight").data), w)] = [] from fun w => rfl,
    show ∀ w : Str, opacityClasses [((("font-weight").data), w)] = [] from fun w => rfl,
    show ∀ w : Str, shadowClasses [((("font-weight").data), w)] = [] from fun w => rfl,
    List.nil_append, List.append_nil]

theorem toTailwindSingleLineHeight (v : Str) :
    toTailwind [((("line-height").data), v)] =
      lineHeightClasses [((("line-height").data), v)] := by
  simp only [toTailwind,
    show ∀ w : Str, colorClasses [((("line-height").data), w)] = [] from fun w => rfl,
    show ∀ w : Str, textAlignClasses [((("line-height").data), w)] = [] from fun w => rfl,
    show ∀ w : Str, decorationLineClasses [((("line-height").data), w)] = [] from fun w => rfl,
    show ∀ w : Str, decorationStyleClasses [((("line-height").data), w)] = [] from fun w => rfl,
    show ∀ w : Str, skipInkClasses [((("line-height").data), w)] = [] from fun w => rfl,
    show ∀ w : Str, thicknessClasses [((("line-height").data), w)] = [] from fun w => rfl,
    show ∀ w : Str, underlineOffsetClasses [((("line-height").data), w)] = [] from fun w => rfl,
    show ∀ w : Str, underlinePositionClasses [((("line-height").data), w)] = [] from fun w => rfl,
    show ∀ w : Str, fontSizeClasses [((("line-height").data), w)] = [] from fun w => rfl,
    show ∀ w : Str, fontWeightClasses [((("line-height").data), w)] = [] from fun w => rfl,
    show ∀ w : Str, letterSpacingClasses [((("line-height").data), w)] = [] from fun w => rfl,
    show ∀ w : Str, fontFamilyClasses [((("line-height").data), w)] = [] from fun w => rfl,
    show ∀ w : Str, fontStyleClasses [((("line-height").data), w)] = [] from fun w => rfl,
    show ∀ w : Str, spacingClasses [((("line-height").data), w)] = [] from fun w => rfl,
    show ∀ w : Str, widthClasses [((("line-height").data), w)] = [] from fun w => rfl,
    show ∀ w : Str, heightClasses [((("line-height").data), w)] = [] from fun w => rfl,
    show ∀ w : Str, radiusClasses [((("line-height").data), w)] = [] from fun w => rfl,
    show ∀ w : Str, borderClasses [((("line-height").data), w)] = [] from fun w => rfl,
    show ∀ w : Str, bgClasses [((("line-height").data), w)] = [] from fun w => rfl,
    show ∀ w : Str, opacityClasses [((("line-height").data), w)] = [] from fun w => rfl,
    show ∀ w : Str, shadowClasses [((("line-height").data), w)] = [] from fun w => rfl,
    List.nil_append, List.append_nil]

theorem toTailwindSingleLetterSpacing (v : Str) :
    toTailwind [((("letter-spacing").data), v)] =
      letterSpacingClasses [((("letter-spacing").data), v)] := by
  simp only [toTailwind,
    show ∀ w : Str, colorClasses [((("letter-spacing").data), w)] = [] from fun w => rfl,
    show ∀ w : Str, textAlignClasses [((("letter-spacing").data), w)] = [] from fun w => rfl,
    show ∀ w : Str, decorationLineClasses [((("letter-spacing").data), w)] = [] from fun w => rfl,
    show ∀ w : Str, decorationStyleClasses [((("letter-spacing").data), w)] = [] from fun w => rfl,
    show ∀ w : Str, skipInkClasses [((("letter-spacing").data), w)] = [] from fun w => rfl,
    show ∀ w : Str, thicknessClasses [((("letter-spacing").data), w)] = [] from fun w => rfl,
    show ∀ w : Str, underlineOffsetClasses [((("letter-spacing").data), w)] = [] from fun w => rfl,
    show ∀ w : Str, underlinePositionClasses [((("letter-spacing").data), w)] = [] from fun w => rfl,
    show ∀ w : Str, fontSizeClasses [((("letter-spacing").data), w)] = [] from fun w => rfl,
    show ∀ w : Str, fontWeightClasses [((("letter-spacing").data), w)] = [] from fun w => rfl,
    show ∀ w : Str, lineHeightClasses [((("letter-spacing").data), w)] = [] from fun w => rfl,
    show ∀ w : Str, fontFamilyClasses [((("letter-spacing").data), w)] = [] from fun w => rfl,
    show ∀ w : Str, fontStyleClasses [((("letter-spacing").data), w)] = [] from fun w => rfl,
    show ∀ w : Str, spacingClasses [((("letter-spacing").data), w)] = [] from fun w => rfl,
    show ∀ w : Str, widthClasses [((("letter-spacing").data), w)] = [] from fun w => rfl,
    show ∀ w : Str, heightClasses [((("letter-spacing").data), w)] = [] from fun w => rfl,
    show ∀ w : Str, radiusClasses [((("letter-spacing").data), w)] = [] from fun w => rfl,
    show ∀ w : Str, borderClasses [((("letter-spacing").data), w)] = [] from fun w => rfl,
    show ∀ w : Str, bgClasses [((("letter-spacing").data), w)] = [] from fun w => rfl,
    show ∀ w : Str, opacityClasses [((("letter-spacing").data), w)] = [] from fun w => rfl,
    show ∀ w : Str, shadowClasses [((("letter-spacing").data), w)] = [] from fun w => rfl,
    List.nil_append, List.append_nil]

theorem toTailwindSingleDecorationLine (v : Str) :
    toTailwind [((("text-decoration-line").data), v)] =
      decorationLineClasses [((("text-decoration-line").data), v)] := by
  simp only [toTailwind,
    show ∀ w : Str, colorClasses [((("text-decoration-line").data), w)] = [] from fun w => rfl,
    show ∀ w : Str, textAlignClasses [((("text-decoration-line").data), w)] = [] from fun w => rfl,
    show ∀ w : Str, decorationStyleClasses [((("text-decoration-line").data), w)] = [] from fun w => rfl,
    show ∀ w : Str, skipInkClasses [((("text-decoration-line").data), w)] = [] from fun w => rfl,
    show ∀ w : Str, thicknessClasses [((("text-decoration-line").data), w)] = [] from fun w => rfl,
    show ∀ w : Str, underlineOffsetClasses [((("text-decoration-line").data), w)] = [] from fun w => rfl,
    show ∀ w : Str, underlinePositionClasses [((("text-decoration-line").data), w)] = [] from fun w => rfl,
    show ∀ w : Str, fontSizeClasses [((("text-decoration-line").data), w)] = [] from fun w => rfl,
    show ∀ w : Str, fontWeightClasses [((("text-decoration-line").data), w)] = [] from fun w => rfl,
    show ∀ w : Str, lineHeightClasses [((("text-decoration-line").data), w)] = [] from fun w => rfl,
    show ∀ w : Str, letterSpacingClasses [((("text-decoration-line").data), w)] = [] from fun w => rfl,
    show ∀ w : Str, fontFamilyClasses [((("text-decoration-line").data), w)] = [] from fun w => rfl,
    show ∀ w : Str, fontStyleClasses [((("text-decoration-line").data), w)] = [] from fun w => rfl,
    show ∀ w : Str, spacingClasses [((("text-decoration-line").data), w)] = [] from fun w => rfl,
    show ∀ w : Str, widthClasses [((("text-decoration-line").data), w)] = [] from fun w => rfl,
    show ∀ w : Str, heightClasses [((("text-decoration-line").data), w)] = [] from fun w => rfl,
    show ∀ w : Str, radiusClasses [((("text-decoration-line").data), w)] = [] from fun w => rfl,
    show ∀ w : Str, borderClasses [((("text-decoration-line").data), w)] = [] from fun w => rfl,
    show ∀ w : Str, bgClasses [((("text-decoration-line").data), w)] = [] from fun w => rfl,
    show ∀ w : Str, opacityClasses [((("text-decoration-line").data), w)] = [] from fun w => rfl,
    show ∀ w : Str, shadowClasses [((("text-decoration-line").data), w)] = [] from fun w => rfl,
    List.nil_append, List.append_nil]

theorem toTailwindSingleDecorationStyle (v : Str) :
    toTailwind [((("text-decoration-style").data), v)] =
      decorationStyleClasses [((("text-decoration-style").data), v)] := by
  simp only [toTailwind,
    show ∀ w : Str, colorClasses [((("text-decoration-style").data), w)] = [] from fun w => rfl,
    show ∀ w : Str, textAlignClasses [((("text-decoration-style").data), w)] = [] from fun w => rfl,
    show ∀ w : Str, decorationLineClasses [((("text-decoration-style").data), w)] = [] from fun w => rfl,
    show ∀ w : Str, skipInkClasses [((("text-decoration-style").data), w)] = [] from fun w => rfl,
    show ∀ w : Str, thicknessClasses [((("text-decoration-style").data), w)] = [] from fun w => rfl,
    show ∀ w : Str, underlineOffsetClasses [((("text-decoration-style").data), w)] = [] from fun w => rfl,
    show ∀ w : Str, underlinePositionClasses [((("text-decoration-style").data), w)] = [] from fun w => rfl,
    show ∀ w : Str, fontSizeClasses [((("text-decoration-style").data), w)] = [] from fun w => rfl,
    show ∀ w : Str, fontWeightClasses [((("text-decoration-style").data), w)] = [] from fun w => rfl,
    show ∀ w : Str, lineHeightClasses [((("text-decoration-style").data), w)] = [] from fun w => rfl,
    show ∀ w : Str, letterSpacingClasses [((("text-decoration-style").data), w)] = [] from fun w => rfl,
    show ∀ w : Str, fontFamilyClasses [((("text-decoration-style").data), w)] = [] from fun w => rfl,
    show ∀ w : Str, fontStyleClasses [((("text-decoration-style").data), w)] = [] from fun w => rfl,
    show ∀ w : Str, spacingClasses [((("text-decoration-style").data), w)] = [] from fun w => rfl,
    show ∀ w : Str, widthClasses [((("text-decoration-style").data), w)] = [] from fun w => rfl,
    show ∀ w : Str, heightClasses [((("text-decoration-style").data), w)] = [] from fun w => rfl,
    show ∀ w : Str, radiusClasses [((("text-decoration-style").data), w)] = [] from fun w => rfl,
    show ∀ w : Str, borderClasses [((("text-decoration-style").data), w)] = [] from fun w => rfl,
    show ∀ w : Str, bgClasses [((("text-decoration-style").data), w)] = [] from fun w => rfl,
    show ∀ w : Str, opacityClasses [((("text-decoration-style").data), w)] = [] from fun w => rfl,
    show ∀ w : Str, shadowClasses [((("text-decoration-style").data), w)] = [] from fun w => rfl,
    List.nil_append, List.append_nil]

theorem toTailwindSingleSkipInk (v : Str) :
    toTailwind [((("text-decoration-skip-ink").data), v)] =
      skipInkClasses [((("text-decoration-skip-ink").data), v)] := by
  simp only [toTailwind,
    show ∀ w : Str, colorClasses [((("text-decoration-skip-ink").data), w)] = [] from fun w => rfl,
    show ∀ w : Str, textAlignClasses [((("text-decoration-skip-ink").data), w)] = [] from fun w => rfl,
    show ∀ w : Str, decorationLineClasses [((("text-decoration-skip-ink").data), w)] = [] from fun w => rfl,
    show ∀ w : Str, decorationStyleClasses [((("text-decoration-skip-ink").data), w)] = [] from fun w => rfl,
    show ∀ w : Str, thicknessClasses [((("text-decoration-skip-ink").data), w)] = [] from fun w => rfl,
    show ∀ w : Str, underlineOffsetClasses [((("text-decoration-skip-ink").data), w)] = [] from fun w => rfl,
    show ∀ w : Str, underlinePositionClasses [((("text-decoration-skip-ink").data), w)] = [] from fun w => rfl,
    show ∀ w : Str, fontSizeClasses [((("text-decoration-skip-ink").data), w)] = [] from fun w => rfl,
    show ∀ w : Str, fontWeightClasses [((("text-decoration-skip-ink").data), w)] = [] from fun w => rfl,
    show ∀ w : Str, lineHeightClasses [((("text-decoration-skip-ink").data), w)] = [] from fun w => rfl,
    show ∀ w : Str, letterSpacingClasses [((("text-decoration-skip-ink").data), w)] = [] from fun w => rfl,
    show ∀ w : Str, fontFamilyClasses [((("text-decoration-skip-ink").data), w)] = [] from fun w => rfl,
    show ∀ w : Str, fontStyleClasses [((("text-decoration-skip-ink").data), w)] = [] from fun w => rfl,
    show ∀ w : Str, spacingClasses [((("text-decoration-skip-ink").data), w)] = [] from fun w => rfl,
    show ∀ w : Str, widthClasses [((("text-decoration-skip-ink").data), w)] = [] from fun w => rfl,
    show ∀ w : Str, heightClasses [((("text-decoration-skip-ink").data), w)] = [] from fun w => rfl,
    show ∀ w : Str, radiusClasses [((("text-decoration-skip-ink").data), w)] = [] from fun w => rfl,
    show ∀ w : Str, borderClasses [((("text-decoration-skip-ink").data), w)] = [] from fun w => rfl,
    show ∀ w : Str, bgClasses [((("text-decoration-skip-ink").data), w)] = [] from fun w => rfl,
    show ∀ w : Str, opacityClasses [((("text-decoration-skip-ink").data), w)] = [] from fun w => rfl,
    show ∀ w : Str, shadowClasses [((("text-decoration-skip-ink").data), w)] = [] from fun w => rfl,
    List.nil_append, List.append_nil]

theorem toTailwindSingleThickness (v : Str) :
    toTailwind [((("text-decoration-thickness").data), v)] =
      thicknessClasses [((("text-decoration-thickness").data), v)] := by
  simp only [toTailwind,
    show ∀ w : Str, colorClasses [((("text-decoration-thickness").data), w)] = [] from fun w => rfl,
    show ∀ w : Str, textAlignClasses [((("text-decoration-thickness").data), w)] = [] from fun w => rfl,
    show ∀ w : Str, decorationLineClasses [((("text-decoration-thickness").data), w)] = [] from fun w => rfl,
    show ∀ w : Str, decorationStyleClasses [((("text-decoration-thickness").data), w)] = [] from fun w => rfl,
    show ∀ w : Str, skipInkClasses [((("text-decoration-thickness").data), w)] = [] from fun w => rfl,
    show ∀ w : Str, underlineOffsetClasses [((("text-decoration-thickness").data), w)] = [] from fun w => rfl,
    show ∀ w : Str, underlinePositionClasses [((("text-decoration-thickness").data), w)] = [] from fun w => rfl,
    show ∀ w : Str, fontSizeClasses [((("text-decoration-thickness").data), w)] = [] from fun w => rfl,
    show ∀ w : Str, fontWeightClasses [((("text-decoration-thickness").data), w)] = [] from fun w => rfl,
    show ∀ w : Str, lineHeightClasses [((("text-decoration-thickness").data), w)] = [] from fun w => rfl,
    show ∀ w : Str, letterSpacingClasses [((("text-decoration-thickness").data), w)] = [] from fun w => rfl,
    show ∀ w : Str, fontFamilyClasses [((("text-decoration-thickness").data), w)] = [] from fun w => rfl,
    show ∀ w : Str, fontStyleClasses [((("text-decoration-thickness").data), w)] = [] from fun w => rfl,
    show ∀ w : Str, spacingClasses [((("text-decoration-thickness").data), w)] = [] from fun w => rfl,
    show ∀ w : Str, widthClasses [((("text-decoration-thickness").data), w)] = [] from fun w => rfl,
    show ∀ w : Str, heightClasses [((("text-decoration-thickness").data), w)] = [] from fun w => rfl,
    show ∀ w : Str, radiusClasses [((("text-decoration-thickness").data), w)] = [] from fun w => rfl,
    show ∀ w : Str, borderClasses [((("text-decoration-thickness").data), w)] = [] from fun w => rfl,
    show ∀ w : Str, bgClasses [((("text-decoration-thickness").data), w)] = [] from fun w => rfl,
    show ∀ w : Str, opacityClasses [((("text-decoration-thickness").data), w)] = [] from fun w => rfl,
    show ∀ w : Str, shadowClasses [((("text-decoration-thickness").data), w)] = [] from fun w => rfl,
    List.nil_append, List.append_nil]

theorem toTailwindSingleUnderlineOffset (v : Str) :
    toTailwind [((("text-underline-offset").data), v)] =
      underlineOffsetClasses [((("text-underline-offset").data), v)] := by
  simp only [toTailwind,
    show ∀ w : Str, colorClasses [((("text-underline-offset").data), w)] = [] from fun w => rfl,
    show ∀ w : Str, textAlignClasses [((("text-underline-offset").data), w)] = [] from fun w => rfl,
    show ∀ w : Str, decorationLineClasses [((("text-underline-offset").data), w)] = [] from fun w => rfl,
    show ∀ w : Str, decorationStyleClasses [((("text-underline-offset").data), w)] = [] from fun w => rfl,
    show ∀ w : Str, skipInkClasses [((("text-underline-offset").data), w)] = [] from fun w => rfl,
    show ∀ w : Str, thicknessClasses [((("text-underline-offset").data), w)] = [] from fun w => rfl,
    show ∀ w : Str, underlinePositionClasses [((("text-underline-offset").data), w)] = [] from fun w => rfl,
    show ∀ w : Str, fontSizeClasses [((("text-underline-offset").data), w)] = [] from fun w => rfl,
    show ∀ w : Str, fontWeightClasses [((("text-underline-offset").data), w)] = [] from fun w => rfl,
    show ∀ w : Str, lineHeightClasses [((("text-underline-offset").data), w)] = [] from fun w => rfl,
    show ∀ w : Str, letterSpacingClasses [((("text-underline-offset").data), w)] = [] from fun w => rfl,
    show ∀ w : Str, fontFamilyClasses [((("text-underline-offset").data), w)] = [] from fun w => rfl,
    show ∀ w : Str, fontStyleClasses [((("text-underline-offset").data), w)] = [] from fun w => rfl,
    show ∀ w : Str, spacingClasses [((("text-underline-offset").data), w)] = [] from fun w => rfl,
    show ∀ w : Str, widthClasses [((("text-underline-offset").data), w)] = [] from fun w => rfl,
    show ∀ w : Str, heightClasses [((("text-underline-offset").data), w)] = [] from fun w => rfl,
    show ∀ w : Str, radiusClasses [((("text-underline-offset").data), w)] = [] from fun w => rfl,
    show ∀ w : Str, borderClasses [((("text-underline-offset").data), w)] = [] from fun w => rfl,
    show ∀ w : Str, bgClasses [((("text-underline-offset").data), w)] = [] from fun w => rfl,
    show ∀ w : Str, opacityClasses [((("text-underline-offset").data), w)] = [] from fun w => rfl,
    show ∀ w : Str, shadowClasses [((("text-underline-offset").data), w)] = [] from fun w => rfl,
    List.nil_append, List.append_nil]

theorem toTailwindSingleUnderlinePosition (v : Str) :
    toTailwind [((("text-underline-position").data), v)] =
      underlinePositionClasses [((("text-underline-position").data), v)] := by
  simp only [toTailwind,
    show ∀ w : Str, colorClasses [((("text-underline-position").data), w)] = [] from fun w => rfl,
    show ∀ w : Str, textAlignClasses [((("text-underline-position").data), w)] = [] from fun w => rfl,
    show ∀ w : Str, decorationLineClasses [((("text-underline-position").data), w)] = [] from fun w => rfl,
    show ∀ w : Str, decorationStyleClasses [((("text-underline-position").data), w)] = [] from fun w => rfl,
    show ∀ w : Str, skipInkClasses [((("text-underline-position").data), w)] = [] from fun w => rfl,
    show ∀ w : Str, thicknessClasses [((("text-underline-position").data), w)] = [] from fun w => rfl,
    show ∀ w : Str, underlineOffsetClasses [((("text-underline-position").data), w)] = [] from fun w => rfl,
    show ∀ w : Str, fontSizeClasses [((("text-underline-position").data), w)] = [] from fun w => rfl,
    show ∀ w : Str, fontWeightClasses [((("text-underline-position").data), w)] = [] from fun w => rfl,
    show ∀ w : Str, lineHeightClasses [((("text-underline-position").data), w)] = [] from fun w => rfl,
    show ∀ w : Str, letterSpacingClasses [((("text-underline-position").data), w)] = [] from fun w => rfl,
    show ∀ w : Str, fontFamilyClasses [((("text-underline-position").data), w)] = [] from fun w => rfl,
    show ∀ w : Str, fontStyleClasses [((("text-underline-position").data), w)] = [] from fun w => rfl,
    show ∀ w : Str, spacingClasses [((("text-underline-position").data), w)] = [] from fun w => rfl,
    show ∀ w : Str, widthClasses [((("text-underline-position").data), w)] = [] from fun w => rfl,
    show ∀ w : Str, heightClasses [((("text-underline-position").data), w)] = [] from fun w => rfl,
    show ∀ w : Str, radiusClasses [((("text-underline-position").data), w)] = [] from fun w => rfl,
    show ∀ w : Str, borderClasses [((("text-underline-position").data), w)] = [] from fun w => rfl,
    show ∀ w : Str, bgClasses [((("text-underline-position").data), w)] = [] from fun w => rfl,
    show ∀ w : Str, opacityClasses [((("text-underline-position").data), w)] = [] from fun w => rfl,
    show ∀ w : Str, shadowClasses [((("text-underline-position").data), w)] = [] from fun w => rfl,
    List.nil_append, List.append_nil]

theorem toTailwindSingleFontStyle (v : Str) :
    toTailwind [((("font-style").data), v)] =
      fontStyleClasses [((("font-style").data), v)] := by
  simp only [toTailwind,
    show ∀ w : Str, colorClasses [((("font-style").data), w)] = [] from fun w => rfl,
    show ∀ w : Str, textAlignClasses [((("font-style").data), w)] = [] from fun w => rfl,
    show ∀ w : Str, decorationLineClasses [((("font-style").data), w)] = [] from fun w => rfl,
    show ∀ w : Str, decorationStyleClasses [((("font-style").data), w)] = [] from fun w => rfl,
    show ∀ w : Str, skipInkClasses [((("font-style").data), w)] = [] from fun w => rfl,
    show ∀ w : Str, thicknessClasses [((("font-style").data), w)] = [] from fun w => rfl,
    show ∀ w : Str, underlineOffsetClasses [((("font-style").data), w)] = [] from fun w => rfl,
    show ∀ w : Str, underlinePositionClasses [((("font-style").data), w)] = [] from fun w => rfl,
    show ∀ w : Str, fontSizeClasses [((("font-style").data), w)] = [] from fun w => rfl,
    show ∀ w : Str, fontWeightClasses [((("font-style").data), w)] = [] from fun w => rfl,
    show ∀ w : Str, lineHeightClasses [((("font-style").data), w)] = [] from fun w => rfl,
    show ∀ w : Str, letterSpacingClasses [((("font-style").data), w)] = [] from fun w => rfl,
    show ∀ w : Str, fontFamilyClasses [((("font-style").data), w)] = [] from fun w => rfl,
    show ∀ w : Str, spacingClasses [((("font-style").data), w)] = [] from fun w => rfl,
    show ∀ w : Str, widthClasses [((("font-style").data), w)] = [] from fun w => rfl,
    show ∀ w : Str, heightClasses [((("font-style").data), w)] = [] from fun w => rfl,
    show ∀ w : Str, radiusClasses [((("font-style").data), w)] = [] from fun w => rfl,
    show ∀ w : Str, borderClasses [((("font-style").data), w)] = [] from fun w => rfl,
    show ∀ w : Str, bgClasses [((("font-style").data), w)] = [] from fun w => rfl,
    show ∀ w : Str, opacityClasses [((("font-style").data), w)] = [] from fun w => rfl,
    show ∀ w : Str, shadowClasses [((("font-style").data), w)] = [] from fun w => rfl,
    List.nil_append, List.append_nil]


/-! ## Parser: characterization -/

theorem takeWhile_append_all {pr : Char → Bool} (xs ys : Str)
    (h : ∀ c ∈ xs, pr c = true) :
    (xs ++ ys).takeWhile pr = xs ++ ys.takeWhile pr := by
  induction xs with
  | nil => simp
  | cons c xs ih =>
    have hc := h c (by simp)
    simp only [List.cons_append, List.takeWhile_cons, hc, if_true]
    rw [ih (fun c hc2 => h c (by simp [hc2]))]

theorem dropWhile_append_all {pr : Char → Bool} (xs ys : Str)
    (h : ∀ c ∈ xs, pr c = true) :
    (xs ++ ys).dropWhile pr = ys.dropWhile pr := by
  induction xs with
  | nil => simp
  | cons c xs ih =>
    have hc := h c (by simp)
    simp only [List.cons_append, List.dropWhile_cons, hc, if_true]
    exact ih (fun c hc2 => h c (by simp [hc2]))

theorem ws_not_propChar (c : Char) (h : isWs c = true) : propChar c = false := by
  simp only [isWs, Bool.or_eq_true, beq_iff_eq] at h
  rcases h with ((((((((h | h) | h) | h) | h) | h) | h) | h) | h) | h <;>
    subst h <;> decide

/-- The shape of lines accepted by the declaration regex. -/
def declShape (l p v : Str) : Prop :=
  ∃ w1 w2, l = p ++ w1 ++ [':'] ++ w2 ++ v ++ [';'] ∧ p ≠ [] ∧
    (∀ c ∈ p, propChar c = true) ∧ (∀ c ∈ w1, isWs c = true) ∧
    (∀ c ∈ w2, isWs c = true) ∧
    (∀ c, v.head? = some c → isWs c = false) ∧
    (∀ c ∈ v, isLineTerm c = false)

theorem matchDecl_sound (l p v : Str) (h : matchDecl l = some (p, v)) :
    declShape l p v := by
  unfold matchDecl at h
  by_cases hp : l.takeWhile propChar = []
  · simp [hp] at h
  · rw [if_neg hp] at h
    cases heq : (l.dropWhile propChar).dropWhile isWs with
    | nil => rw [heq] at h; exact absurd h (by simp)
    | cons c r3 =>
      rw [heq] at h
      simp only [] at h
      by_cases hc : c = ':'
      case neg => rw [if_neg hc] at h; exact absurd h (by simp)
      case pos =>
        subst hc
        rw [if_pos rfl] at h
        cases heq2 : (r3.dropWhile isWs).getLast? with
        | none => rw [heq2] at h; exact absurd h (by simp)
        | some e =>
          rw [heq2] at h
          simp only [] at h
          by_cases he : e = ';'
          case neg => rw [if_neg he] at h; exact absurd h (by simp)
          case pos =>
            subst he
            rw [if_pos rfl] at h
            by_cases hany : ((r3.dropWhile isWs).dropLast).any isLineTerm
            case pos => rw [if_pos hany] at h; exact absurd h (by simp)
            case neg =>
              rw [if_neg hany] at h
              injection h with h
              injection h with hpv hvv
              subst hpv
              subst hvv
              refine ⟨(l.dropWhile propChar).takeWhile isWs, r3.takeWhile isWs,
                ?_, hp, ?_, ?_, ?_, ?_, ?_⟩
              · have e1 : l.takeWhile propChar ++ l.dropWhile propChar = l :=
                  List.takeWhile_append_dropWhile _ _
                have e2 : (l.dropWhile propChar).takeWhile isWs ++
                      (l.dropWhile propChar).dropWhile isWs =
                    l.dropWhile propChar :=
                  List.takeWhile_append_dropWhile _ _
                have e3 : r3.takeWhile isWs ++ r3.dropWhile isWs = r3 :=
                  List.takeWhile_append_dropWhile _ _
                have hr4ne : r3.dropWhile isWs ≠ [] := by
                  intro hnil
                  rw [hnil] at heq2
                  simp at heq2
                have e4 : (r3.dropWhile isWs).dropLast ++
                      [(r3.dropWhile isWs).getLast hr4ne] =
                    r3.dropWhile isWs :=
                  List.dropLast_append_getLast hr4ne
                have hgl : (r3.dropWhile isWs).getLast hr4ne = ';' := by
                  have hh := List.getLast?_eq_getLast (r3.dropWhile isWs) hr4ne
                  rw [heq2] at hh
                  exact (Option.some.inj hh).symm
                rw [hgl] at e4
                calc l = l.takeWhile propChar ++ l.dropWhile propChar := e1.symm
                  _ = l.takeWhile propChar ++
                        ((l.dropWhile propChar).takeWhile isWs ++
                          (l.dropWhile propChar).dropWhile isWs) := by rw [e2]
                  _ = l.takeWhile propChar ++
                        ((l.dropWhile propChar).takeWhile isWs ++
                          (':' :: r3)) := by rw [heq]
                  _ = l.takeWhile propChar ++
                        ((l.dropWhile propChar).takeWhile isWs ++
                          (':' :: (r3.takeWhile isWs ++ r3.dropWhile isWs))) := by
                        rw [e3]
                  _ = l.takeWhile propChar ++
                        ((l.dropWhile propChar).takeWhile isWs ++
                          (':' :: (r3.takeWhile isWs ++
                            ((r3.dropWhile isWs).dropLast ++ [';'])))) := by
                        rw [e4]
                  _ = _ := by simp
              · intro c hcm; exact List.mem_takeWhile_imp hcm
              · intro c hcm; exact List.mem_takeWhile_imp hcm
              · intro c hcm; exact List.mem_takeWhile_imp hcm
              · intro c hhd
                have hr4ne : r3.dropWhile isWs ≠ [] := by
                  intro hnil
                  rw [hnil] at heq2
                  simp at heq2
                have hhd4 : (r3.dropWhile isWs).head? = some c := by
                  rcases hl4 : r3.dropWhile isWs with _ | ⟨x, xs⟩
                  · exact absurd hl4 hr4ne
                  · rw [hl4] at hhd
                    cases hxs : xs with
                    | nil =>
                      rw [hxs] at hhd
                      simp at hhd
                    | cons y ys =>
                      rw [hxs] at hhd
                      simp only [List.dropLast_cons₂, List.head?_cons] at hhd
                      simpa using hhd
                have hnws := List.head_dropWhile_not isWs r3 hr4ne
                rw [List.head?_eq_head hr4ne] at hhd4
                rw [Option.some.inj hhd4] at hnws
                simpa using hnws
              · intro c hcm
                have := List.any_eq_false.mp (by simpa using hany) c hcm
                simpa using this

theorem matchDecl_complete (l p v : Str) (h : declShape l p v) :
    matchDecl l = some (p, v) := by
  obtain ⟨w1, w2, hl, hp, hpc, hw1, hw2, hvh, hvl⟩ := h
  have hcolon : propChar ':' = false := by decide
  have hcolonw : isWs ':' = false := by decide
  have htake : l.takeWhile propChar = p := by
    rw [hl]
    rw [show p ++ w1 ++ [':'] ++ w2 ++ v ++ [';'] =
        p ++ (w1 ++ [':'] ++ w2 ++ v ++ [';']) by simp]
    rw [takeWhile_append_all p _ hpc]
    cases hw : w1 with
    | nil =>
      simp [List.takeWhile, hcolon]
    | cons c cs =>
      have hws : isWs c = true := hw1 c (by rw [hw]; simp)
      have hnp := ws_not_propChar c hws
      simp [List.takeWhile, hnp]
  have hdrop : l.dropWhile propChar = w1 ++ [':'] ++ w2 ++ v ++ [';'] := by
    rw [hl]
    rw [show p ++ w1 ++ [':'] ++ w2 ++ v ++ [';'] =
        p ++ (w1 ++ [':'] ++ w2 ++ v ++ [';']) by simp]
    rw [dropWhile_append_all p _ hpc]
    cases hw : w1 with
    | nil =>
      simp [List.dropWhile, hcolon]
    | cons c cs =>
      have hws : isWs c = true := hw1 c (by rw [hw]; simp)
      have hnp := ws_not_propChar c hws
      simp [List.dropWhile, hnp, hw]
  have hdrop2 : (l.dropWhile propChar).dropWhile isWs =
      ':' :: (w2 ++ v ++ [';']) := by
    rw [hdrop]
    rw [show w1 ++ [':'] ++ w2 ++ v ++ [';'] =
        w1 ++ (':' :: (w2 ++ v ++ [';'])) by simp]
    rw [dropWhile_append_all w1 _ hw1]
    simp [List.dropWhile, hcolonw]
  have hdrop3 : (w2 ++ v ++ [';']).dropWhile isWs = v ++ [';'] := by
    rw [show w2 ++ v ++ [';'] = w2 ++ (v ++ [';']) by simp]
    rw [dropWhile_append_all w2 _ hw2]
    cases hv : v with
    | nil => simp [List.dropWhile]; decide
    | cons c cs =>
      have hws : isWs c = false := hvh c (by rw [hv]; simp)
      simp [List.dropWhile, hws]
  unfold matchDecl
  rw [htake, if_neg hp, hdrop2]
  simp only [if_true]
  rw [show (w2 ++ v ++ [';']).dropWhile isWs = v ++ [';'] from hdrop3]
  rw [List.getLast?_concat]
  simp only [if_true]
  rw [List.dropLast_concat]
  rw [show v.any isLineTerm = false from
    List.any_eq_false.mpr (fun c hc => by simp [hvl c hc])]
  simp [htake]

theorem getK_setK (o : CssObj) (k v p : Str) :
    getK (setK o k v) p = if p = k then some v else getK o p := by
  by_cases h : p = k
  · simp [setK, getK, List.lookup, h]
  · have hb : ((p == k) = false) := by simpa using h
    simp [setK, getK, List.lookup, hb, h]

/-- C4: line handling of the parser.  (i) a line is parsed iff it has
the shape `propertyName: value;` (letters/hyphens property, optional
whitespace around the colon, the final `;` ending the line);
(ii) each parsed line contributes exactly its property mapped to its
(var-resolved) value, non-matching lines contribute nothing, and for a
property appearing on several lines the last line wins. -/
theorem parser_line_semantics :
    (∀ (l p v : Str), matchDecl l = some (p, v) ↔ declShape l p v) ∧
      ∀ (d : Dict) (css : Str) (p : Str),
        getK (parseCSS d css) p =
          ((((cssLines css).filterMap matchDecl).filter
              (fun pv => pv.1 = p)).getLast?).map
            (fun pv => resolveVars d pv.2) := by
  constructor
  · exact fun l p v => ⟨matchDecl_sound l p v, matchDecl_complete l p v⟩
  · intro d css p
    unfold parseCSS
    induction (cssLines css) using List.reverseRecOn with
    | nil => simp [getK]
    | append_singleton ls l ih =>
      rw [List.foldl_append, List.filterMap_append, List.filter_append]
      simp only [List.foldl_cons, List.foldl_nil, List.filterMap_cons,
        List.filterMap_nil]
      cases hm : matchDecl l with
      | none =>
        simp only [List.filter_nil, List.append_nil]
        exact ih
      | some pv =>
        rcases pv with ⟨q, w⟩
        simp only []
        rw [getK_setK]
        by_cases hq : p = q
        · subst hq
          have hf : List.filter (fun pv => decide (pv.1 = p)) [(p, w)] =
              [(p, w)] := by simp
          rw [if_pos rfl, hf, List.getLast?_concat]
          simp
        · have hqp : ¬(q = p) := fun hh => hq hh.symm
          have hf : List.filter (fun pv => decide (pv.1 = p)) [(q, w)] =
              [] := by simp [hqp]
          rw [if_neg hq, hf, List.append_nil]
          exact ih

/-! ## Border shorthand: characterization -/

/-- Spec wording: the width token emits a side-prefixed class, omitted
when the width is `0`/`0px`, bare side prefix when exactly
`1px`/`0.0625rem`. -/
def borderWidthSpec (pfx w : Str) : List Str :=
  if w = (("0").data) ∨ w = (("0px").data) then []
  else if w = (("1px").data) ∨ w = (("0.0625rem").data) then [pfx]
  else [pfx ++ (("-[").data) ++ w ++ (("]").data)]

/-- Spec wording: the style token emits a shared `border-<style>` class
unless it is `none` or already seen on an earlier side. -/
def borderStyleSpec (seen : List Str) (s : Str) : List Str :=
  if s = (("none").data) ∨ s ∈ seen then [] else [(("border-").data) ++ s]

/-- Spec wording: the set of seen styles after processing a style
token. -/
def borderStyleSeenSpec (seen : List Str) (s : Str) : List Str :=
  if s = (("none").data) ∨ s ∈ seen then seen else seen ++ [s]

/-- Spec wording: the color token emits a side-prefixed bracket (or
dictionary-untagged) class, suppressed when `transparent`. -/
def borderColorSpec (pfx c : Str) : List Str :=
  if c = (("transparent").data) then []
  else if dictMarker.isPrefixOf c then
    [pfx ++ (("-[").data) ++ stripDict c ++ (("]").data)]
  else [pfx ++ (("-[").data) ++ c ++ (("]").data)]

/-- The running style set after the whole border section. -/
def borderStylesOut (o : CssObj) : List Str :=
  (borderSides.foldl (borderStep o) ([], [])).2

theorem borderOne_seen_invariant (pfx v : Str) (seen : List Str)
    (hnd : seen.Nodup) (hnn : (("none").data) ∉ seen) :
    ((borderOne pfx v seen).2).Nodup ∧
      (("none").data) ∉ (borderOne pfx v seen).2 := by
  simp only [borderOne]
  refine ⟨?_, ?_⟩ <;>
    by_cases hh : (2 ≤ (jsSplitWs (jsTrim v)).length ∧
      (jsSplitWs (jsTrim v)).getD 1 [] ≠ [] ∧
      (jsSplitWs (jsTrim v)).getD 1 [] ≠ (("none").data) ∧
      (jsSplitWs (jsTrim v)).getD 1 [] ∉ seen)
  · rw [if_pos hh]
    rw [List.nodup_append]
    refine ⟨hnd, List.nodup_singleton _, ?_⟩
    intro a ha hb
    simp only [List.mem_singleton] at hb
    subst hb
    exact hh.2.2.2 ha
  · rw [if_neg hh]
    exact hnd
  · rw [if_pos hh]
    intro hmem
    rcases List.mem_append.mp hmem with h1 | h2
    · exact hnn h1
    · simp only [List.mem_singleton] at h2
      exact hh.2.2.1 h2.symm
  · rw [if_neg hh]
    exact hnn

theorem borderFold_seen_invariant (o : CssObj) :
    ∀ (sides : List (Str × Str)) (acc : List Str × List Str),
      acc.2.Nodup → (("none").data) ∉ acc.2 →
        ((sides.foldl (borderStep o) acc).2).Nodup ∧
          (("none").data) ∉ (sides.foldl (borderStep o) acc).2 := by
  intro sides
  induction sides with
  | nil => intro acc h1 h2; exact ⟨h1, h2⟩
  | cons side rest ih =>
    intro acc h1 h2
    rw [List.foldl_cons]
    have hstep : ((borderStep o acc side).2).Nodup ∧
        (("none").data) ∉ (borderStep o acc side).2 := by
      unfold borderStep
      cases hg : getT o side.1 with
      | none => exact ⟨h1, h2⟩
      | some v => exact borderOne_seen_invariant side.2 v acc.2 h1 h2
    exact ih _ hstep.1 hstep.2

/-- C7: the border shorthand.  A value splitting into up to three
whitespace tokens (width, style, color) emits: the side-prefixed width
class (omitted for `0`/`0px`, bare prefix for `1px`/`0.0625rem`), the
shared `border-<style>` class unless the style is `none` or already in
the running set (which it then joins), and the side-prefixed color
class unless `transparent`.  Across the five sides the running style
set stays duplicate-free and never contains `none`, so each style
emits its shared class at most once. -/
theorem border_shorthand_spec (pfx v : Str) (seen : List Str) (w s c : Str)
    (hw : w ≠ []) (hs : s ≠ []) (hc : c ≠ []) :
    (jsSplitWs (jsTrim v) = [w] →
      borderOne pfx v seen = (borderWidthSpec pfx w, seen)) ∧
    (jsSplitWs (jsTrim v) = [w, s] →
      borderOne pfx v seen =
        (borderWidthSpec pfx w ++ borderStyleSpec seen s,
          borderStyleSeenSpec seen s)) ∧
    (jsSplitWs (jsTrim v) = [w, s, c] →
      borderOne pfx v seen =
        (borderWidthSpec pfx w ++ borderStyleSpec seen s ++
            borderColorSpec pfx c,
          borderStyleSeenSpec seen s)) ∧
    ∀ o : CssObj, (borderStylesOut o).Nodup ∧
      (("none").data) ∉ borderStylesOut o := by
  refine ⟨?_, ?_, ?_, ?_⟩
  · intro hsplit
    simp only [borderOne]
    rw [hsplit]
    simp only [List.getD_cons_zero, List.getD_cons_succ, List.getD_nil,
      List.length_cons, List.length_nil]
    norm_num
    simp only [borderWidthSpec, hw, ne_eq, not_false_iff, true_and]
    split_ifs <;> simp_all
  · intro hsplit
    simp only [borderOne]
    rw [hsplit]
    simp only [List.getD_cons_zero, List.getD_cons_succ, List.getD_nil,
      List.length_cons, List.length_nil]
    norm_num
    simp only [borderWidthSpec, borderStyleSpec, borderStyleSeenSpec,
      hw, hs, ne_eq, not_false_iff, true_and]
    split_ifs <;> simp_all
  · intro hsplit
    simp only [borderOne]
    rw [hsplit]
    simp only [List.getD_cons_zero, List.getD_cons_succ, List.getD_nil,
      List.length_cons, List.length_nil, List.drop_succ_cons,
      List.drop_zero]
    have hint : List.intercalate ((" ").data) [c] = c := by
      simp [List.intercalate]
    norm_num
    rw [hint]
    simp only [borderWidthSpec, borderStyleSpec, borderStyleSeenSpec,
      borderColorSpec, hw, hs, hc, ne_eq, not_false_iff, true_and]
    split_ifs <;> simp_all
  · intro o
    exact borderFold_seen_invariant o borderSides ([], [])
      List.nodup_nil (by simp)

theorem border_shorthand_spec_witness :
    borderOne (("border-t").data) (("2px dashed red").data)
        [(("solid").data)] =
      ([(("border-t-[2px]").data), (("border-dashed").data),
          (("border-t-[red]").data)],
        [(("solid").data), (("dashed").data)]) := by
  have h := (border_shorthand_spec (("border-t").data)
      (("2px dashed red").data) [(("solid").data)] (("2px").data)
      (("dashed").data) (("red").data)
      (by decide) (by decide) (by decide)).2.2.1 (by decide)
  rw [h]
  decide

/-! ## var() resolution: characterization -/

/-- One source-text `var()` occurrence: `var(<name>,<fallback>)`.
(Any whitespace after the comma is part of the fallback text here; the
regex's `\s*` and the subsequent `.trim()` both discard it.) -/
def varOcc (n f : Str) : Str :=
  ("var(".data) ++ n ++ [','] ++ f ++ [')']

/-- The fallback capture of the regex on the occurrence `var(n,f)`:
the fallback with leading whitespace removed by `\s*` — except that
when `f` is pure whitespace, `[^)]+` keeps its last character. -/
def fbCap (f : Str) : Str :=
  if trimL f = [] then
    match f.getLast? with
    | some c => [c]
    | none => []
  else trimL f

/-- A declaration value assembled from literal text interleaved with
`var()` occurrences: `lit₀ var(n₁,f₁) lit₁ … var(nₖ,fₖ) litₖ`. -/
def assembleVal : Str → List ((Str × Str) × Str) → Str
  | lit0, [] => lit0
  | lit0, p :: rest => lit0 ++ varOcc p.1.1 p.1.2 ++ assembleVal p.2 rest

/-- The same value with every occurrence independently replaced by its
resolution (dictionary value tagged with the marker, or the trimmed,
quote-stripped fallback), literals preserved. -/
def assembleRes (d : Dict) : Str → List ((Str × Str) × Str) → Str
  | lit0, [] => lit0
  | lit0, p :: rest =>
    lit0 ++ resolveRepl d p.1.1 p.1.2 ++ assembleRes d p.2 rest

theorem matchVarHere_occ (n f rest : Str) (hn : n ≠ []) (hnc : ',' ∉ n)
    (hf : f ≠ []) (hfp : ')' ∉ f) :
    matchVarHere (varOcc n f ++ rest) = some (n, fbCap f, varOcc n f, rest) := by
  have hW : varOcc n f ++ rest =
      ("var(".data) ++ (n ++ ([','] ++ (f ++ (')' :: rest)))) := by
    simp [varOcc]
  have hpre : ("var(".data).isPrefixOf (varOcc n f ++ rest) = true := by
    rw [List.isPrefixOf_iff_prefix, hW]
    exact ⟨n ++ ([','] ++ (f ++ (')' :: rest))), rfl⟩
  have ht1 : (varOcc n f ++ rest).drop 4 =
      n ++ ([','] ++ (f ++ (')' :: rest))) := by
    rw [hW]
    rfl
  have hnall : ∀ c ∈ n, ((fun c => c != ',') c) = true := by
    intro c hc
    have hne : c ≠ ',' := fun hh => hnc (hh ▸ hc)
    simpa using hne
  have hnm : (n ++ ([','] ++ (f ++ (')' :: rest)))).takeWhile
      (fun c => c != ',') = n := by
    rw [takeWhile_append_all _ _ hnall]
    simp [List.takeWhile]
  have hdm : (n ++ ([','] ++ (f ++ (')' :: rest)))).dropWhile
      (fun c => c != ',') = ',' :: (f ++ (')' :: rest)) := by
    rw [dropWhile_append_all _ _ hnall]
    simp [List.dropWhile]
  simp only [matchVarHere, hpre, if_true, ht1, hnm, hdm]
  rw [if_neg hn]
  by_cases hws : trimL f = []
  · -- the fallback is pure whitespace: `\s*` backtracks one character
    have hallws : ∀ c ∈ f, isWs c = true := by
      intro c hc
      exact List.dropWhile_eq_nil_iff.mp hws c hc
    have hwtake : (f ++ (')' :: rest)).takeWhile isWs = f := by
      rw [takeWhile_append_all _ _ hallws]
      simp [List.takeWhile, show isWs ')' = false from rfl]
    have hwdrop : (f ++ (')' :: rest)).dropWhile isWs = ')' :: rest := by
      rw [dropWhile_append_all _ _ hallws]
      simp [List.dropWhile, show isWs ')' = false from rfl]
    rw [hwtake, hwdrop]
    have h1 : (')' :: rest).takeWhile (fun c => c != ')') = [] := by
      simp [List.takeWhile]
    have h2 : (')' :: rest).dropWhile (fun c => c != ')') = ')' :: rest := by
      simp [List.dropWhile]
    rw [h1, h2]
    cases hgl : f.getLast? with
    | none =>
      have hfe : f = [] := by simpa using hgl
      exact absurd hfe hf
    | some wc =>
      simp [fbCap, hws, hgl, varOcc]
  · -- the fallback has a non-whitespace character
    have hsplitf : f.takeWhile isWs ++ f.dropWhile isWs = f :=
      List.takeWhile_append_dropWhile _ _
    have hpre_ws : ∀ c ∈ f.takeWhile isWs, isWs c = true := by
      intro c hc
      exact List.mem_takeWhile_imp hc
    have hrest_ne : f.dropWhile isWs ≠ [] := hws
    have hrest_hd : ∀ c, (f.dropWhile isWs).head? = some c → isWs c = false := by
      intro c hc
      have hnw := List.head_dropWhile_not isWs f hrest_ne
      rw [List.head?_eq_head hrest_ne] at hc
      rw [Option.some.inj hc] at hnw
      simpa using hnw
    have hsp : ∀ X : Str, f.takeWhile isWs ++ (f.dropWhile isWs ++ X) = f ++ X :=
      fun X => by rw [← List.append_assoc, hsplitf]
    have hwtake : (f ++ (')' :: rest)).takeWhile isWs = f.takeWhile isWs := by
      rw [show f ++ (')' :: rest) =
          f.takeWhile isWs ++ (f.dropWhile isWs ++ (')' :: rest)) from
          (hsp (')' :: rest)).symm]
      rw [takeWhile_append_all _ _ hpre_ws]
      cases hfd : f.dropWhile isWs with
      | nil => exact absurd hfd hrest_ne
      | cons x xs =>
        have hx : isWs x = false := by
          apply hrest_hd
          rw [hfd]
          rfl
        simp [List.takeWhile, hx]
    have hwdrop : (f ++ (')' :: rest)).dropWhile isWs =
        f.dropWhile isWs ++ (')' :: rest) := by
      rw [show f ++ (')' :: rest) =
          f.takeWhile isWs ++ (f.dropWhile isWs ++ (')' :: rest)) from
          (hsp (')' :: rest)).symm]
      rw [dropWhile_append_all _ _ hpre_ws]
      cases hfd : f.dropWhile isWs with
      | nil => exact absurd hfd hrest_ne
      | cons x xs =>
        have hx : isWs x = false := by
          apply hrest_hd
          rw [hfd]
          rfl
        simp [List.dropWhile, hx]
    have hfb_all : ∀ c ∈ f.dropWhile isWs, ((fun c => c != ')') c) = true := by
      intro c hc
      have hcf : c ∈ f := (List.dropWhile_sublist isWs).mem hc
      have hne : c ≠ ')' := fun hh => hfp (hh ▸ hcf)
      simpa using hne
    have hfbtake : (f.dropWhile isWs ++ (')' :: rest)).takeWhile
        (fun c => c != ')') = f.dropWhile isWs := by
      rw [takeWhile_append_all _ _ hfb_all]
      simp [List.takeWhile]
    have hfbdrop : (f.dropWhile isWs ++ (')' :: rest)).dropWhile
        (fun c => c != ')') = ')' :: rest := by
      rw [dropWhile_append_all _ _ hfb_all]
      simp [List.dropWhile]
    rw [hwtake, hwdrop, hfbtake, hfbdrop]
    simp [fbCap, trimL, hws, hrest_ne, varOcc, hsp]

/-- `var(` cannot straddle the boundary between a literal and an
occurrence (which itself starts with `v`): a match of `var(` starting
inside the literal lies entirely inside it. -/
theorem varOpen_no_straddle (lit X : Str) (hne : lit ≠ [])
    (h : ("var(".data).isPrefixOf (lit ++ 'v' :: X) = true) :
    ("var(".data) <:+: lit := by
  rcases lit with _ | ⟨c1, l1⟩
  · exact absurd rfl hne
  rcases l1 with _ | ⟨c2, l2⟩
  · simp [List.isPrefixOf] at h
  rcases l2 with _ | ⟨c3, l3⟩
  · simp [List.isPrefixOf] at h
  rcases l3 with _ | ⟨c4, l4⟩
  · simp [List.isPrefixOf] at h
  · simp only [List.cons_append, List.isPrefixOf, Bool.and_eq_true,
      beq_iff_eq, List.isPrefixOf_nil_left] at h
    obtain ⟨h1, h2, h3, h4, _⟩ := h
    subst h1; subst h2; subst h3; subst h4
    exact ⟨[], l4, by simp⟩

/-- A literal without the substring `var(` has no regex match at all. -/
theorem findVar_none (lit : Str) (h : ¬ ("var(".data) <:+: lit) :
    findVar lit = none := by
  induction lit with
  | nil => rfl
  | cons c rest ih =>
    have hmh : matchVarHere (c :: rest) = none := by
      have hpre : ("var(".data).isPrefixOf (c :: rest) = false := by
        cases hbv : ("var(".data).isPrefixOf (c :: rest) with
        | false => rfl
        | true => exact absurd (List.isPrefixOf_iff_prefix.mp hbv).isInfix h
      unfold matchVarHere
      rw [hpre]
      simp
    have hrest : ¬ ("var(".data) <:+: rest := by
      intro hi
      exact h (hi.trans (List.suffix_cons c rest).isInfix)
    unfold findVar
    rw [hmh, ih hrest]

/-- The leftmost regex match on `lit ++ var(n,f) ++ rest` is the
occurrence, when the literal contains no `var(`. -/
theorem findVar_occ (lit n f rest : Str)
    (hlit : ¬ ("var(".data) <:+: lit)
    (hn : n ≠ []) (hnc : ',' ∉ n) (hf : f ≠ []) (hfp : ')' ∉ f) :
    findVar (lit ++ (varOcc n f ++ rest)) =
      some (lit, n, fbCap f, varOcc n f, rest) := by
  revert hlit
  induction lit with
  | nil =>
    intro _
    have hocc : varOcc n f ++ rest =
        'v' :: (("ar(".data) ++ (n ++ ([','] ++ (f ++ (')' :: rest))))) := by
      simp [varOcc]
    rw [List.nil_append, hocc]
    unfold findVar
    rw [← hocc, matchVarHere_occ n f rest hn hnc hf hfp]
  | cons c lit' ih =>
    intro hlit
    rw [List.cons_append]
    unfold findVar
    have hmh : matchVarHere (c :: (lit' ++ (varOcc n f ++ rest))) = none := by
      have hpre : ("var(".data).isPrefixOf
          (c :: (lit' ++ (varOcc n f ++ rest))) = false := by
        cases hbv : ("var(".data).isPrefixOf
            (c :: (lit' ++ (varOcc n f ++ rest))) with
        | false => rfl
        | true =>
          have hX : c :: (lit' ++ (varOcc n f ++ rest)) =
              (c :: lit') ++ ('v' ::
                (("ar(".data) ++ (n ++ ([','] ++ (f ++ (')' :: rest)))))) := by
            simp [varOcc]
          rw [hX] at hbv
          exact absurd (varOpen_no_straddle _ _ (by simp) hbv) hlit
      unfold matchVarHere
      rw [hpre]
      simp
    rw [hmh]
    have hlit' : ¬ ("var(".data) <:+: lit' := fun hi =>
      hlit (hi.trans (List.suffix_cons c lit').isInfix)
    rw [ih hlit']

theorem trimL_idem (l : Str) : trimL (trimL l) = trimL l :=
  List.dropWhile_idempotent isWs l

theorem jsTrim_fbCap (f : Str) : jsTrim (fbCap f) = jsTrim f := by
  unfold fbCap
  by_cases hws : trimL f = []
  · rw [if_pos hws]
    cases hgl : f.getLast? with
    | none =>
      have hfe : f = [] := by simpa using hgl
      subst hfe
      rfl
    | some c =>
      have hc : isWs c = true := by
        have hm : c ∈ f := List.mem_of_mem_getLast? hgl
        exact List.dropWhile_eq_nil_iff.mp hws c hm
      show jsTrim [c] = jsTrim f
      unfold jsTrim
      rw [hws]
      have : trimL [c] = [] := by simp [trimL, List.dropWhile, hc]
      rw [this]
  · rw [if_neg hws]
    show jsTrim (trimL f) = jsTrim f
    unfold jsTrim
    rw [trimL_idem]

theorem resolveRepl_fbCap (d : Dict) (n f : Str) :
    resolveRepl d n (fbCap f) = resolveRepl d n f := by
  unfold resolveRepl
  rw [jsTrim_fbCap]

theorem trimL_sublist (x : Str) : (trimL x).Sublist x :=
  List.dropWhile_sublist _

theorem trimR_sublist (x : Str) : (trimR x).Sublist x := by
  unfold trimR
  have h := (List.dropWhile_sublist (p := isWs) (l := x.reverse)).reverse
  rwa [List.reverse_reverse] at h

theorem jsTrim_sublist (l : Str) : (jsTrim l).Sublist l :=
  (trimR_sublist (trimL l)).trans (trimL_sublist l)

theorem stripQuotes_sublist (l : Str) : (stripQuotes l).Sublist l := by
  rcases l with _ | ⟨c, r⟩
  · simp [stripQuotes]
  · simp only [stripQuotes]
    by_cases hq : c = dquote ∨ c = squote
    · rw [if_pos hq]
      cases hgl : r.getLast? with
      | none => exact List.sublist_cons_self c r
      | some e =>
        simp only []
        by_cases he : e = dquote ∨ e = squote
        · rw [if_pos he]
          exact (List.dropLast_sublist r).trans (List.sublist_cons_self c r)
        · rw [if_neg he]
          exact List.sublist_cons_self c r
    · rw [if_neg hq]
      cases hgl : (c :: r).getLast? with
      | none => simp at hgl
      | some e =>
        simp only []
        by_cases he : e = dquote ∨ e = squote
        · rw [if_pos he]
          exact List.dropLast_sublist (c :: r)
        · rw [if_neg he]

theorem lookup_val_mem (d : Dict) (k v : Str) (h : d.lookup k = some v) :
    ∃ kv ∈ d, kv.2 = v := by
  induction d with
  | nil => simp [List.lookup] at h
  | cons kv rest ih =>
    obtain ⟨k1, v1⟩ := kv
    rw [List.lookup] at h
    cases hk : (k == k1) with
    | true =>
      rw [hk] at h
      simp only [Option.some.injEq] at h
      exact ⟨(k1, v1), by simp, h⟩
    | false =>
      rw [hk] at h
      obtain ⟨kv2, hm, he⟩ := ih h
      exact ⟨kv2, by simp [hm], he⟩

theorem no_paren_no_varOpen (P : Str) (h : '(' ∉ P) :
    ¬ ("var(".data) <:+: P := by
  intro hi
  exact h (hi.subset (by decide : '(' ∈ ("var(".data)))

/-- Replacing the first occurrence of `var(n,f)` in `P ++ var(n,f) ++ S`
hits exactly the shown occurrence, when `P` contains no `var(`. -/
theorem jsReplaceFirst_at (P S r n f : Str)
    (hP : ¬ ("var(".data) <:+: P) :
    jsReplaceFirst (P ++ (varOcc n f ++ S)) (varOcc n f) r = P ++ (r ++ S) := by
  revert hP
  induction P with
  | nil =>
    intro _
    have hocc : varOcc n f ++ S =
        'v' :: (("ar(".data) ++ (n ++ ([','] ++ (f ++ (')' :: S))))) := by
      simp [varOcc]
    rw [List.nil_append, hocc]
    unfold jsReplaceFirst
    rw [← hocc]
    have hpre : (varOcc n f).isPrefixOf (varOcc n f ++ S) = true :=
      List.isPrefixOf_iff_prefix.mpr ⟨S, rfl⟩
    rw [hpre]
    simp only [if_true, List.nil_append]
    rw [List.drop_left]
  | cons c P' ih =>
    intro hP
    rw [List.cons_append]
    unfold jsReplaceFirst
    have hpre : (varOcc n f).isPrefixOf
        (c :: (P' ++ (varOcc n f ++ S))) = false := by
      cases hbv : (varOcc n f).isPrefixOf (c :: (P' ++ (varOcc n f ++ S))) with
      | false => rfl
      | true =>
        have hv : ("var(".data) <+: varOcc n f :=
          ⟨n ++ [','] ++ f ++ [')'], by simp [varOcc]⟩
        have hvp : ("var(".data).isPrefixOf
            (c :: (P' ++ (varOcc n f ++ S))) = true :=
          List.isPrefixOf_iff_prefix.mpr
            (hv.trans (List.isPrefixOf_iff_prefix.mp hbv))
        have hX : c :: (P' ++ (varOcc n f ++ S)) =
            (c :: P') ++ ('v' ::
              (("ar(".data) ++ (n ++ ([','] ++ (f ++ (')' :: S)))))) := by
          simp [varOcc]
        rw [hX] at hvp
        exact absurd (varOpen_no_straddle _ _ (by simp) hvp) hP
    rw [hpre]
    simp only [Bool.false_eq_true, if_false]
    have hP' : ¬ ("var(".data) <:+: P' := fun hi =>
      hP (hi.trans (List.suffix_cons c P').isInfix)
    rw [ih hP']
    simp

/-- Well-formedness of an assembled value: every occurrence has a
nonempty comma-free name and a nonempty `)`-free, `(`-free fallback,
and the literal pieces contain no parenthesis (in particular no
`var(`). -/
def partsOk (lit0 : Str) (parts : List ((Str × Str) × Str)) : Prop :=
  '(' ∉ lit0 ∧
    ∀ p ∈ parts, p.1.1 ≠ [] ∧ ',' ∉ p.1.1 ∧ p.1.2 ≠ [] ∧ ')' ∉ p.1.2 ∧
      '(' ∉ p.1.2 ∧ '(' ∉ p.2

/-- Dictionary well-formedness: no blank values (the store rejects
them), no parenthesis in values. -/
def dictOk (d : Dict) : Prop := ∀ kv ∈ d, kv.2 ≠ [] ∧ '(' ∉ kv.2

theorem collectVar_assemble (parts : List ((Str × Str) × Str)) :
    ∀ (lit0 : Str) (fuel : Nat), (assembleVal lit0 parts).length < fuel →
      partsOk lit0 parts →
      collectVar fuel (assembleVal lit0 parts) =
        parts.map (fun p => (p.1.1, fbCap p.1.2, varOcc p.1.1 p.1.2)) := by
  induction parts with
  | nil =>
    intro lit0 fuel hfuel hok
    cases fuel with
    | zero => exact absurd hfuel (Nat.not_lt_zero _)
    | succ fu =>
      simp only [assembleVal, collectVar, List.map_nil]
      rw [findVar_none lit0 (no_paren_no_varOpen lit0 hok.1)]
  | cons p rest ih =>
    intro lit0 fuel hfuel hok
    obtain ⟨hl0, hall⟩ := hok
    have hp := hall p (by simp)
    cases fuel with
    | zero => exact absurd hfuel (Nat.not_lt_zero _)
    | succ fu =>
      simp only [assembleVal, collectVar, List.map_cons]
      rw [show lit0 ++ varOcc p.1.1 p.1.2 ++ assembleVal p.2 rest =
          lit0 ++ (varOcc p.1.1 p.1.2 ++ assembleVal p.2 rest) by simp]
      rw [findVar_occ _ _ _ _ (no_paren_no_varOpen lit0 hl0)
        hp.1 hp.2.1 hp.2.2.1 hp.2.2.2.1]
      simp only []
      rw [ih p.2 fu ?_ ?_]
      · have hlen : (assembleVal lit0 (p :: rest)).length =
            lit0.length + ((varOcc p.1.1 p.1.2).length +
              (assembleVal p.2 rest).length) := by
          simp [assembleVal]
        have hocclen : 6 ≤ (varOcc p.1.1 p.1.2).length := by
          simp [varOcc]
          omega
        rw [hlen] at hfuel
        omega
      · exact ⟨hp.2.2.2.2.2, fun q hq => hall q (by simp [hq])⟩

theorem paren_not_in_resolveRepl (d : Dict) (hd : dictOk d) (n f : Str)
    (hf : '(' ∉ f) : '(' ∉ resolveRepl d n f := by
  unfold resolveRepl
  cases hdt : dictTruthy d (jsTrim n) with
  | none =>
    intro hm
    exact hf ((jsTrim_sublist f).mem ((stripQuotes_sublist (jsTrim f)).mem hm))
  | some v =>
    intro hm
    rcases List.mem_append.mp hm with h1 | h2
    · exact (by decide : '(' ∉ dictMarker) h1
    · have hlk : d.lookup (jsTrim n) = some v := by
        unfold dictTruthy at hdt
        cases hl : d.lookup (jsTrim n) with
        | none => rw [hl] at hdt; exact absurd hdt (by simp)
        | some v2 =>
          rw [hl] at hdt
          simp only [] at hdt
          by_cases hv2 : v2 = []
          · rw [if_pos hv2] at hdt; exact absurd hdt (by simp)
          · rw [if_neg hv2] at hdt
            exact hdt
      obtain ⟨kv, hkm, hkv⟩ := lookup_val_mem d _ v hlk
      exact (hd kv hkm).2 (hkv ▸ h2)

theorem foldRepl_assemble (d : Dict) (hd : dictOk d)
    (parts : List ((Str × Str) × Str)) :
    ∀ (P lit0 : Str), '(' ∉ P → partsOk lit0 parts →
      (parts.map (fun p => (p.1.1, fbCap p.1.2, varOcc p.1.1 p.1.2))).foldl
        (fun acc m => jsReplaceFirst acc m.2.2 (resolveRepl d m.1 m.2.1))
        (P ++ assembleVal lit0 parts) =
      P ++ assembleRes d lit0 parts := by
  induction parts with
  | nil =>
    intro P lit0 _ _
    simp [assembleVal, assembleRes]
  | cons p rest ih =>
    intro P lit0 hP hok
    obtain ⟨hl0, hall⟩ := hok
    have hp := hall p (by simp)
    simp only [List.map_cons, List.foldl_cons, assembleVal, assembleRes]
    have hPl : ¬ ("var(".data) <:+: (P ++ lit0) := by
      apply no_paren_no_varOpen
      intro hm
      rcases List.mem_append.mp hm with h | h
      · exact hP h
      · exact hl0 h
    rw [show P ++ (lit0 ++ varOcc p.1.1 p.1.2 ++ assembleVal p.2 rest) =
        (P ++ lit0) ++ (varOcc p.1.1 p.1.2 ++ assembleVal p.2 rest) by simp]
    rw [jsReplaceFirst_at (P ++ lit0) (assembleVal p.2 rest)
      (resolveRepl d p.1.1 (fbCap p.1.2)) p.1.1 p.1.2 hPl]
    rw [resolveRepl_fbCap]
    rw [show (P ++ lit0) ++ (resolveRepl d p.1.1 p.1.2 ++
        assembleVal p.2 rest) =
        (P ++ lit0 ++ resolveRepl d p.1.1 p.1.2) ++ assembleVal p.2 rest
        by simp]
    rw [ih (P ++ lit0 ++ resolveRepl d p.1.1 p.1.2) p.2 ?_ ?_]
    · simp
    · intro hm
      rcases List.mem_append.mp hm with h | h
      · rcases List.mem_append.mp h with h2 | h2
        · exact hP h2
        · exact hl0 h2
      · exact paren_not_in_resolveRepl d hd p.1.1 p.1.2 hp.2.2.2.2.1 h
    · exact ⟨hp.2.2.2.2.2, fun q hq => hall q (by simp [hq])⟩

/-- C3: `var()` resolution.  For a declaration value assembled as
`lit₀ var(n₁,f₁) lit₁ … var(nₖ,fₖ) litₖ` (well-formed occurrences,
literal pieces without parentheses), every occurrence whose trimmed
name is a key of the dictionary is replaced by the dictionary value
tagged with the internal marker, every other occurrence by its trimmed
fallback with one layer of surrounding quotes stripped, each occurrence
independently, with all surrounding literal text preserved. -/
theorem var_resolution_spec (d : Dict) (lit0 : Str)
    (parts : List ((Str × Str) × Str)) (hd : dictOk d)
    (hok : partsOk lit0 parts) :
    resolveVars d (assembleVal lit0 parts) = assembleRes d lit0 parts := by
  unfold resolveVars collectVars
  rw [collectVar_assemble parts lit0 _ (Nat.lt_succ_self _) hok]
  have h := foldRepl_assemble d hd parts [] lit0 (by simp) hok
  simpa using h

theorem var_resolution_spec_witness :
    resolveVars [((("--a").data), (("x").data))]
        (("var(--a, 1px) solid var(--b, #fff)").data) =
      (("__DICT__x solid #fff").data) := by
  have h := var_resolution_spec [((("--a").data), (("x").data))] []
      [(((("--a").data), ((" 1px").data)), ((" solid ").data)),
        (((("--b").data), ((" #fff").data)), [])]
      (by unfold dictOk; decide) (by unfold partsOk; decide)
  rw [show (("var(--a, 1px) solid var(--b, #fff)").data) =
      assembleVal []
        [(((("--a").data), ((" 1px").data)), ((" solid ").data)),
          (((("--b").data), ((" #fff").data)), [])] from by decide]
  rw [h]
  decide

/-! ## Further singleton-object reductions of the mapper -/

theorem toTailwindSingleTextAlign (v : Str) :
    toTailwind [((("text-align").data), v)] =
      textAlignClasses [((("text-align").data), v)] := by
  simp only [toTailwind,
    show ∀ w : Str, colorClasses [((("text-align").data), w)] = [] from fun w => rfl,
    show ∀ w : Str, decorationLineClasses [((("text-align").data), w)] = [] from fun w => rfl,
    show ∀ w : Str, decorationStyleClasses [((("text-align").data), w)] = [] from fun w => rfl,
    show ∀ w : Str, skipInkClasses [((("text-align").data), w)] = [] from fun w => rfl,
    show ∀ w : Str, thicknessClasses [((("text-align").data), w)] = [] from fun w => rfl,
    show ∀ w : Str, underlineOffsetClasses [((("text-align").data), w)] = [] from fun w => rfl,
    show ∀ w : Str, underlinePositionClasses [((("text-align").data), w)] = [] from fun w => rfl,
    show ∀ w : Str, fontSizeClasses [((("text-align").data), w)] = [] from fun w => rfl,
    show ∀ w : Str, fontWeightClasses [((("text-align").data), w)] = [] from fun w => rfl,
    show ∀ w : Str, lineHeightClasses [((("text-align").data), w)] = [] from fun w => rfl,
    show ∀ w : Str, letterSpacingClasses [((("text-align").data), w)] = [] from fun w => rfl,
    show ∀ w : Str, fontFamilyClasses [((("text-align").data), w)] = [] from fun w => rfl,
    show ∀ w : Str, fontStyleClasses [((("text-align").data), w)] = [] from fun w => rfl,
    show ∀ w : Str, spacingClasses [((("text-align").data), w)] = [] from fun w => rfl,
    show ∀ w : Str, widthClasses [((("text-align").data), w)] = [] from fun w => rfl,
    show ∀ w : Str, heightClasses [((("text-align").data), w)] = [] from fun w => rfl,
    show ∀ w : Str, radiusClasses [((("text-align").data), w)] = [] from fun w => rfl,
    show ∀ w : Str, borderClasses [((("text-align").data), w)] = [] from fun w => rfl,
    show ∀ w : Str, bgClasses [((("text-align").data), w)] = [] from fun w => rfl,
    show ∀ w : Str, opacityClasses [((("text-align").data), w)] = [] from fun w => rfl,
    show ∀ w : Str, shadowClasses [((("text-align").data), w)] = [] from fun w => rfl,
    List.nil_append, List.append_nil]

theorem toTailwindSingleColor (v : Str) :
    toTailwind [((("color").data), v)] =
      colorClasses [((("color").data), v)] := by
  simp only [toTailwind,
    show ∀ w : Str, textAlignClasses [((("color").data), w)] = [] from fun w => rfl,
    show ∀ w : Str, decorationLineClasses [((("color").data), w)] = [] from fun w => rfl,
    show ∀ w : Str, decorationStyleClasses [((("color").data), w)] = [] from fun w => rfl,
    show ∀ w : Str, skipInkClasses [((("color").data), w)] = [] from fun w => rfl,
    show ∀ w : Str, thicknessClasses [((("color").data), w)] = [] from fun w => rfl,
    show ∀ w : Str, underlineOffsetClasses [((("color").data), w)] = [] from fun w => rfl,
    show ∀ w : Str, underlinePositionClasses [((("color").data), w)] = [] from fun w => rfl,
    show ∀ w : Str, fontSizeClasses [((("color").data), w)] = [] from fun w => rfl,
    show ∀ w : Str, fontWeightClasses [((("color").data), w)] = [] from fun w => rfl,
    show ∀ w : Str, lineHeightClasses [((("color").data), w)] = [] from fun w => rfl,
    show ∀ w : Str, letterSpacingClasses [((("color").data), w)] = [] from fun w => rfl,
    show ∀ w : Str, fontFamilyClasses [((("color").data), w)] = [] from fun w => rfl,
    show ∀ w : Str, fontStyleClasses [((("color").data), w)] = [] from fun w => rfl,
    show ∀ w : Str, spacingClasses [((("color").data), w)] = [] from fun w => rfl,
    show ∀ w : Str, widthClasses [((("color").data), w)] = [] from fun w => rfl,
    show ∀ w : Str, heightClasses [((("color").data), w)] = [] from fun w => rfl,
    show ∀ w : Str, radiusClasses [((("color").data), w)] = [] from fun w => rfl,
    show ∀ w : Str, borderClasses [((("color").data), w)] = [] from fun w => rfl,
    show ∀ w : Str, bgClasses [((("color").data), w)] = [] from fun w => rfl,
    show ∀ w : Str, opacityClasses [((("color").data), w)] = [] from fun w => rfl,
    show ∀ w : Str, shadowClasses [((("color").data), w)] = [] from fun w => rfl,
    List.nil_append, List.append_nil]

theorem toTailwindSingleFontFamily (v : Str) :
    toTailwind [((("font-family").data), v)] =
      fontFamilyClasses [((("font-family").data), v)] := by
  simp only [toTailwind,
    show ∀ w : Str, colorClasses [((("font-family").data), w)] = [] from fun w => rfl,
    show ∀ w : Str, textAlignClasses [((("font-family").data), w)] = [] from fun w => rfl,
    show ∀ w : Str, decorationLineClasses [((("font-family").data), w)] = [] from fun w => rfl,
    show ∀ w : Str, decorationStyleClasses [((("font-family").data), w)] = [] from fun w => rfl,
    show ∀ w : Str, skipInkClasses [((("font-family").data), w)] = [] from fun w => rfl,
    show ∀ w : Str, thicknessClasses [((("font-family").data), w)] = [] from fun w => rfl,
    show ∀ w : Str, underlineOffsetClasses [((("font-family").data), w)] = [] from fun w => rfl,
    show ∀ w : Str, underlinePositionClasses [((("font-family").data), w)] = [] from fun w => rfl,
    show ∀ w : Str, fontSizeClasses [((("font-family").data), w)] = [] from fun w => rfl,
    show ∀ w : Str, fontWeightClasses [((("font-family").data), w)] = [] from fun w => rfl,
    show ∀ w : Str, lineHeightClasses [((("font-family").data), w)] = [] from fun w => rfl,
    show ∀ w : Str, letterSpacingClasses [((("font-family").data), w)] = [] from fun w => rfl,
    show ∀ w : Str, fontStyleClasses [((("font-family").data), w)] = [] from fun w => rfl,
    show ∀ w : Str, spacingClasses [((("font-family").data), w)] = [] from fun w => rfl,
    show ∀ w : Str, widthClasses [((("font-family").data), w)] = [] from fun w => rfl,
    show ∀ w : Str, heightClasses [((("font-family").data), w)] = [] from fun w => rfl,
    show ∀ w : Str, radiusClasses [((("font-family").data), w)] = [] from fun w => rfl,
    show ∀ w : Str, borderClasses [((("font-family").data), w)] = [] from fun w => rfl,
    show ∀ w : Str, bgClasses [((("font-family").data), w)] = [] from fun w => rfl,
    show ∀ w : Str, opacityClasses [((("font-family").data), w)] = [] from fun w => rfl,
    show ∀ w : Str, shadowClasses [((("font-family").data), w)] = [] from fun w => rfl,
    List.nil_append, List.append_nil]

theorem toTailwindSingleMargin (v : Str) :
    toTailwind [((("margin").data), v)] =
      spacingClasses [((("margin").data), v)] := by
  simp only [toTailwind,
    show ∀ w : Str, colorClasses [((("margin").data), w)] = [] from fun w => rfl,
    show ∀ w : Str, textAlignClasses [((("margin").data), w)] = [] from fun w => rfl,
    show ∀ w : Str, decorationLineClasses [((("margin").data), w)] = [] from fun w => rfl,
    show ∀ w : Str, decorationStyleClasses [((("margin").data), w)] = [] from fun w => rfl,
    show ∀ w : Str, skipInkClasses [((("margin").data), w)] = [] from fun w => rfl,
    show ∀ w : Str, thicknessClasses [((("margin").data), w)] = [] from fun w => rfl,
    show ∀ w : Str, underlineOffsetClasses [((("margin").data), w)] = [] from fun w => rfl,
    show ∀ w : Str, underlinePositionClasses [((("margin").data), w)] = [] from fun w => rfl,
    show ∀ w : Str, fontSizeClasses [((("margin").data), w)] = [] from fun w => rfl,
    show ∀ w : Str, fontWeightClasses [((("margin").data), w)] = [] from fun w => rfl,
    show ∀ w : Str, lineHeightClasses [((("margin").data), w)] = [] from fun w => rfl,
    show ∀ w : Str, letterSpacingClasses [((("margin").data), w)] = [] from fun w => rfl,
    show ∀ w : Str, fontFamilyClasses [((("margin").data), w)] = [] from fun w => rfl,
    show ∀ w : Str, fontStyleClasses [((("margin").data), w)] = [] from fun w => rfl,
    show ∀ w : Str, widthClasses [((("margin").data), w)] = [] from fun w => rfl,
    show ∀ w : Str, heightClasses [((("margin").data), w)] = [] from fun w => rfl,
    show ∀ w : Str, radiusClasses [((("margin").data), w)] = [] from fun w => rfl,
    show ∀ w : Str, borderClasses [((("margin").data), w)] = [] from fun w => rfl,
    show ∀ w : Str, bgClasses [((("margin").data), w)] = [] from fun w => rfl,
    show ∀ w : Str, opacityClasses [((("margin").data), w)] = [] from fun w => rfl,
    show ∀ w : Str, shadowClasses [((("margin").data), w)] = [] from fun w => rfl,
    List.nil_append, List.append_nil]

theorem toTailwindSingleMarginTop (v : Str) :
    toTailwind [((("margin-top").data), v)] =
      spacingClasses [((("margin-top").data), v)] := by
  simp only [toTailwind,
    show ∀ w : Str, colorClasses [((("margin-top").data), w)] = [] from fun w => rfl,
    show ∀ w : Str, textAlignClasses [((("margin-top").data), w)] = [] from fun w => rfl,
    show ∀ w : Str, decorationLineClasses [((("margin-top").data), w)] = [] from fun w => rfl,
    show ∀ w : Str, decorationStyleClasses [((("margin-top").data), w)] = [] from fun w => rfl,
    show ∀ w : Str, skipInkClasses [((("margin-top").data), w)] = [] from fun w => rfl,
    show ∀ w : Str, thicknessClasses [((("margin-top").data), w)] = [] from fun w => rfl,
    show ∀ w : Str, underlineOffsetClasses [((("margin-top").data), w)] = [] from fun w => rfl,
    show ∀ w : Str, underlinePositionClasses [((("margin-top").data), w)] = [] from fun w => rfl,
    show ∀ w : Str, fontSizeClasses [((("margin-top").data), w)] = [] from fun w => rfl,
    show ∀ w : Str, fontWeightClasses [((("margin-top").data), w)] = [] from fun w => rfl,
    show ∀ w : Str, lineHeightClasses [((("margin-top").data), w)] = [] from fun w => rfl,
    show ∀ w : Str, letterSpacingClasses [((("margin-top").data), w)] = [] from fun w => rfl,
    show ∀ w : Str, fontFamilyClasses [((("margin-top").data), w)] = [] from fun w => rfl,
    show ∀ w : Str, fontStyleClasses [((("margin-top").data), w)] = [] from fun w => rfl,
    show ∀ w : Str, widthClasses [((("margin-top").data), w)] = [] from fun w => rfl,
    show ∀ w : Str, heightClasses [((("margin-top").data), w)] = [] from fun w => rfl,
    show ∀ w : Str, radiusClasses [((("margin-top").data), w)] = [] from fun w => rfl,
    show ∀ w : Str, borderClasses [((("margin-top").data), w)] = [] from fun w => rfl,
    show ∀ w : Str, bgClasses [((("margin-top").data), w)] = [] from fun w => rfl,
    show ∀ w : Str, opacityClasses [((("margin-top").data), w)] = [] from fun w => rfl,
    show ∀ w : Str, shadowClasses [((("margin-top").data), w)] = [] from fun w => rfl,
    List.nil_append, List.append_nil]

theorem toTailwindSingleMarginBottom (v : Str) :
    toTailwind [((("margin-bottom").data), v)] =
      spacingClasses [((("margin-bottom").data), v)] := by
  simp only [toTailwind,
    show ∀ w : Str, colorClasses [((("margin-bottom").data), w)] = [] from fun w => rfl,
    show ∀ w : Str, textAlignClasses [((("margin-bottom").data), w)] = [] from fun w => rfl,
    show ∀ w : Str, decorationLineClasses [((("margin-bottom").data), w)] = [] from fun w => rfl,
    show ∀ w : Str, decorationStyleClasses [((("margin-bottom").data), w)] = [] from fun w => rfl,
    show ∀ w : Str, skipInkClasses [((("margin-bottom").data), w)] = [] from fun w => rfl,
    show ∀ w : Str, thicknessClasses [((("margin-bottom").data), w)] = [] from fun w => rfl,
    show ∀ w : Str, underlineOffsetClasses [((("margin-bottom").data), w)] = [] from fun w => rfl,
    show ∀ w : Str, underlinePositionClasses [((("margin-bottom").data), w)] = [] from fun w => rfl,
    show ∀ w : Str, fontSizeClasses [((("margin-bottom").data), w)] = [] from fun w => rfl,
    show ∀ w : Str, fontWeightClasses [((("margin-bottom").data), w)] = [] from fun w => rfl,
    show ∀ w : Str, lineHeightClasses [((("margin-bottom").data), w)] = [] from fun w => rfl,
    show ∀ w : Str, letterSpacingClasses [((("margin-bottom").data), w)] = [] from fun w => rfl,
    show ∀ w : Str, fontFamilyClasses [((("margin-bottom").data), w)] = [] from fun w => rfl,
    show ∀ w : Str, fontStyleClasses [((("margin-bottom").data), w)] = [] from fun w => rfl,
    show ∀ w : Str, widthClasses [((("margin-bottom").data), w)] = [] from fun w => rfl,
    show ∀ w : Str, heightClasses [((("margin-bottom").data), w)] = [] from fun w => rfl,
    show ∀ w : Str, radiusClasses [((("margin-bottom").data), w)] = [] from fun w => rfl,
    show ∀ w : Str, borderClasses [((("margin-bottom").data), w)] = [] from fun w => rfl,
    show ∀ w : Str, bgClasses [((("margin-bottom").data), w)] = [] from fun w => rfl,
    show ∀ w : Str, opacityClasses [((("margin-bottom").data), w)] = [] from fun w => rfl,
    show ∀ w : Str, shadowClasses [((("margin-bottom").data), w)] = [] from fun w => rfl,
    List.nil_append, List.append_nil]

theorem toTailwindSingleMarginLeft (v : Str) :
    toTailwind [((("margin-left").data), v)] =
      spacingClasses [((("margin-left").data), v)] := by
  simp only [toTailwind,
    show ∀ w : Str, colorClasses [((("margin-left").data), w)] = [] from fun w => rfl,
    show ∀ w : Str, textAlignClasses [((("margin-left").data), w)] = [] from fun w => rfl,
    show ∀ w : Str, decorationLineClasses [((("margin-left").data), w)] = [] from fun w => rfl,
    show ∀ w : Str, decorationStyleClasses [((("margin-left").data), w)] = [] from fun w => rfl,
    show ∀ w : Str, skipInkClasses [((("margin-left").data), w)] = [] from fun w => rfl,
    show ∀ w : Str, thicknessClasses [((("margin-left").data), w)] = [] from fun w => rfl,
    show ∀ w : Str, underlineOffsetClasses [((("margin-left").data), w)] = [] from fun w => rfl,
    show ∀ w : Str, underlinePositionClasses [((("margin-left").data), w)] = [] from fun w => rfl,
    show ∀ w : Str, fontSizeClasses [((("margin-left").data), w)] = [] from fun w => rfl,
    show ∀ w : Str, fontWeightClasses [((("margin-left").data), w)] = [] from fun w => rfl,
    show ∀ w : Str, lineHeightClasses [((("margin-left").data), w)] = [] from fun w => rfl,
    show ∀ w : Str, letterSpacingClasses [((("margin-left").data), w)] = [] from fun w => rfl,
    show ∀ w : Str, fontFamilyClasses [((("margin-left").data), w)] = [] from fun w => rfl,
    show ∀ w : Str, fontStyleClasses [((("margin-left").data), w)] = [] from fun w => rfl,
    show ∀ w : Str, widthClasses [((("margin-left").data), w)] = [] from fun w => rfl,
    show ∀ w : Str, heightClasses [((("margin-left").data), w)] = [] from fun w => rfl,
    show ∀ w : Str, radiusClasses [((("margin-left").data), w)] = [] from fun w => rfl,
    show ∀ w : Str, borderClasses [((("margin-left").data), w)] = [] from fun w => rfl,
    show ∀ w : Str, bgClasses [((("margin-left").data), w)] = [] from fun w => rfl,
    show ∀ w : Str, opacityClasses [((("margin-left").data), w)] = [] from fun w => rfl,
    show ∀ w : Str, shadowClasses [((("margin-left").data), w)] = [] from fun w => rfl,
    List.nil_append, List.append_nil]

theorem toTailwindSingleMarginRight (v : Str) :
    toTailwind [((("margin-right").data), v)] =
      spacingClasses [((("margin-right").data), v)] := by
  simp only [toTailwind,
    show ∀ w : Str, colorClasses [((("margin-right").data), w)] = [] from fun w => rfl,
    show ∀ w : Str, textAlignClasses [((("margin-right").data), w)] = [] from fun w => rfl,
    show ∀ w : Str, decorationLineClasses [((("margin-right").data), w)] = [] from fun w => rfl,
    show ∀ w : Str, decorationStyleClasses [((("margin-right").data), w)] = [] from fun w => rfl,
    show ∀ w : Str, skipInkClasses [((("margin-right").data), w)] = [] from fun w => rfl,
    show ∀ w : Str, thicknessClasses [((("margin-right").data), w)] = [] from fun w => rfl,
    show ∀ w : Str, underlineOffsetClasses [((("margin-right").data), w)] = [] from fun w => rfl,
    show ∀ w : Str, underlinePositionClasses [((("margin-right").data), w)] = [] from fun w => rfl,
    show ∀ w : Str, fontSizeClasses [((("margin-right").data), w)] = [] from fun w => rfl,
    show ∀ w : Str, fontWeightClasses [((("margin-right").data), w)] = [] from fun w => rfl,
    show ∀ w : Str, lineHeightClasses [((("margin-right").data), w)] = [] from fun w => rfl,
    show ∀ w : Str, letterSpacingClasses [((("margin-right").data), w)] = [] from fun w => rfl,
    show ∀ w : Str, fontFamilyClasses [((("margin-right").data), w)] = [] from fun w => rfl,
    show ∀ w : Str, fontStyleClasses [((("margin-right").data), w)] = [] from fun w => rfl,
    show ∀ w : Str, widthClasses [((("margin-right").data), w)] = [] from fun w => rfl,
    show ∀ w : Str, heightClasses [((("margin-right").data), w)] = [] from fun w => rfl,
    show ∀ w : Str, radiusClasses [((("margin-right").data), w)] = [] from fun w => rfl,
    show ∀ w : Str, borderClasses [((("margin-right").data), w)] = [] from fun w => rfl,
    show ∀ w : Str, bgClasses [((("margin-right").data), w)] = [] from fun w => rfl,
    show ∀ w : Str, opacityClasses [((("margin-right").data), w)] = [] from fun w => rfl,
    show ∀ w : Str, shadowClasses [((("margin-right").data), w)] = [] from fun w => rfl,
    List.nil_append, List.append_nil]

theorem toTailwindSinglePadding (v : Str) :
    toTailwind [((("padding").data), v)] =
      spacingClasses [((("padding").data), v)] := by
  simp only [toTailwind,
    show ∀ w : Str, colorClasses [((("padding").data), w)] = [] from fun w => rfl,
    show ∀ w : Str, textAlignClasses [((("padding").data), w)] = [] from fun w => rfl,
    show ∀ w : Str, decorationLineClasses [((("padding").data), w)] = [] from fun w => rfl,
    show ∀ w : Str, decorationStyleClasses [((("padding").data), w)] = [] from fun w => rfl,
    show ∀ w : Str, skipInkClasses [((("padding").data), w)] = [] from fun w => rfl,
    show ∀ w : Str, thicknessClasses [((("padding").data), w)] = [] from fun w => rfl,
    show ∀ w : Str, underlineOffsetClasses [((("padding").data), w)] = [] from fun w => rfl,
    show ∀ w : Str, underlinePositionClasses [((("padding").data), w)] = [] from fun w => rfl,
    show ∀ w : Str, fontSizeClasses [((("padding").data), w)] = [] from fun w => rfl,
    show ∀ w : Str, fontWeightClasses [((("padding").data), w)] = [] from fun w => rfl,
    show ∀ w : Str, lineHeightClasses [((("padding").data), w)] = [] from fun w => rfl,
    show ∀ w : Str, letterSpacingClasses [((("padding").data), w)] = [] from fun w => rfl,
    show ∀ w : Str, fontFamilyClasses [((("padding").data), w)] = [] from fun w => rfl,
    show ∀ w : Str, fontStyleClasses [((("padding").data), w)] = [] from fun w => rfl,
    show ∀ w : Str, widthClasses [((("padding").data), w)] = [] from fun w => rfl,
    show ∀ w : Str, heightClasses [((("padding").data), w)] = [] from fun w => rfl,
    show ∀ w : Str, radiusClasses [((("padding").data), w)] = [] from fun w => rfl,
    show ∀ w : Str, borderClasses [((("padding").data), w)] = [] from fun w => rfl,
    show ∀ w : Str, bgClasses [((("padding").data), w)] = [] from fun w => rfl,
    show ∀ w : Str, opacityClasses [((("padding").data), w)] = [] from fun w => rfl,
    show ∀ w : Str, shadowClasses [((("padding").data), w)] = [] from fun w => rfl,
    List.nil_append, List.append_nil]

theorem toTailwindSinglePaddingTop (v : Str) :
    toTailwind [((("padding-top").data), v)] =
      spacingClasses [((("padding-top").data), v)] := by
  simp only [toTailwind,
    show ∀ w : Str, colorClasses [((("padding-top").data), w)] = [] from fun w => rfl,
    show ∀ w : Str, textAlignClasses [((("padding-top").data), w)] = [] from fun w => rfl,
    show ∀ w : Str, decorationLineClasses [((("padding-top").data), w)] = [] from fun w => rfl,
    show ∀ w : Str, decorationStyleClasses [((("padding-top").data), w)] = [] from fun w => rfl,
    show ∀ w : Str, skipInkClasses [((("padding-top").data), w)] = [] from fun w => rfl,
    show ∀ w : Str, thicknessClasses [((("padding-top").data), w)] = [] from fun w => rfl,
    show ∀ w : Str, underlineOffsetClasses [((("padding-top").data), w)] = [] from fun w => rfl,
    show ∀ w : Str, underlinePositionClasses [((("padding-top").data), w)] = [] from fun w => rfl,
    show ∀ w : Str, fontSizeClasses [((("padding-top").data), w)] = [] from fun w => rfl,
    show ∀ w : Str, fontWeightClasses [((("padding-top").data), w)] = [] from fun w => rfl,
    show ∀ w : Str, lineHeightClasses [((("padding-top").data), w)] = [] from fun w => rfl,
    show ∀ w : Str, letterSpacingClasses [((("padding-top").data), w)] = [] from fun w => rfl,
    show ∀ w : Str, fontFamilyClasses [((("padding-top").data), w)] = [] from fun w => rfl,
    show ∀ w : Str, fontStyleClasses [((("padding-top").data), w)] = [] from fun w => rfl,
    show ∀ w : Str, widthClasses [((("padding-top").data), w)] = [] from fun w => rfl,
    show ∀ w : Str, heightClasses [((("padding-top").data), w)] = [] from fun w => rfl,
    show ∀ w : Str, radiusClasses [((("padding-top").data), w)] = [] from fun w => rfl,
    show ∀ w : Str, borderClasses [((("padding-top").data), w)] = [] from fun w => rfl,
    show ∀ w : Str, bgClasses [((("padding-top").data), w)] = [] from fun w => rfl,
    show ∀ w : Str, opacityClasses [((("padding-top").data), w)] = [] from fun w => rfl,
    show ∀ w : Str, shadowClasses [((("padding-top").data), w)] = [] from fun w => rfl,
    List.nil_append, List.append_nil]

theorem toTailwindSinglePaddingBottom (v : Str) :
    toTailwind [((("padding-bottom").data), v)] =
      spacingClasses [((("padding-bottom").data), v)] := by
  simp only [toTailwind,
    show ∀ w : Str, colorClasses [((("padding-bottom").data), w)] = [] from fun w => rfl,
    show ∀ w : Str, textAlignClasses [((("padding-bottom").data), w)] = [] from fun w => rfl,
    show ∀ w : Str, decorationLineClasses [((("padding-bottom").data), w)] = [] from fun w => rfl,
    show ∀ w : Str, decorationStyleClasses [((("padding-bottom").data), w)] = [] from fun w => rfl,
    show ∀ w : Str, skipInkClasses [((("padding-bottom").data), w)] = [] from fun w => rfl,
    show ∀ w : Str, thicknessClasses [((("padding-bottom").data), w)] = [] from fun w => rfl,
    show ∀ w : Str, underlineOffsetClasses [((("padding-bottom").data), w)] = [] from fun w => rfl,
    show ∀ w : Str, underlinePositionClasses [((("padding-bottom").data), w)] = [] from fun w => rfl,
    show ∀ w : Str, fontSizeClasses [((("padding-bottom").data), w)] = [] from fun w => rfl,
    show ∀ w : Str, fontWeightClasses [((("padding-bottom").data), w)] = [] from fun w => rfl,
    show ∀ w : Str, lineHeightClasses [((("padding-bottom").data), w)] = [] from fun w => rfl,
    show ∀ w : Str, letterSpacingClasses [((("padding-bottom").data), w)] = [] from fun w => rfl,
    show ∀ w : Str, fontFamilyClasses [((("padding-bottom").data), w)] = [] from fun w => rfl,
    show ∀ w : Str, fontStyleClasses [((("padding-bottom").data), w)] = [] from fun w => rfl,
    show ∀ w : Str, widthClasses [((("padding-bottom").data), w)] = [] from fun w => rfl,
    show ∀ w : Str, heightClasses [((("padding-bottom").data), w)] = [] from fun w => rfl,
    show ∀ w : Str, radiusClasses [((("padding-bottom").data), w)] = [] from fun w => rfl,
    show ∀ w : Str, borderClasses [((("padding-bottom").data), w)] = [] from fun w => rfl,
    show ∀ w : Str, bgClasses [((("padding-bottom").data), w)] = [] from fun w => rfl,
    show ∀ w : Str, opacityClasses [((("padding-bottom").data), w)] = [] from fun w => rfl,
    show ∀ w : Str, shadowClasses [((("padding-bottom").data), w)] = [] from fun w => rfl,
    List.nil_append, List.append_nil]

theorem toTailwindSinglePaddingLeft (v : Str) :
    toTailwind [((("padding-left").data), v)] =
      spacingClasses [((("padding-left").data), v)] := by
  simp only [toTailwind,
    show ∀ w : Str, colorClasses [((("padding-left").data), w)] = [] from fun w => rfl,
    show ∀ w : Str, textAlignClasses [((("padding-left").data), w)] = [] from fun w => rfl,
    show ∀ w : Str, decorationLineClasses [((("padding-left").data), w)] = [] from fun w => rfl,
    show ∀ w : Str, decorationStyleClasses [((("padding-left").data), w)] = [] from fun w => rfl,
    show ∀ w : Str, skipInkClasses [((("padding-left").data), w)] = [] from fun w => rfl,
    show ∀ w : Str, thicknessClasses [((("padding-left").data), w)] = [] from fun w => rfl,
    show ∀ w : Str, underlineOffsetClasses [((("padding-left").data), w)] = [] from fun w => rfl,
    show ∀ w : Str, underlinePositionClasses [((("padding-left").data), w)] = [] from fun w => rfl,
    show ∀ w : Str, fontSizeClasses [((("padding-left").data), w)] = [] from fun w => rfl,
    show ∀ w : Str, fontWeightClasses [((("padding-left").data), w)] = [] from fun w => rfl,
    show ∀ w : Str, lineHeightClasses [((("padding-left").data), w)] = [] from fun w => rfl,
    show ∀ w : Str, letterSpacingClasses [((("padding-left").data), w)] = [] from fun w => rfl,
    show ∀ w : Str, fontFamilyClasses [((("padding-left").data), w)] = [] from fun w => rfl,
    show ∀ w : Str, fontStyleClasses [((("padding-left").data), w)] = [] from fun w => rfl,
    show ∀ w : Str, widthClasses [((("padding-left").data), w)] = [] from fun w => rfl,
    show ∀ w : Str, heightClasses [((("padding-left").data), w)] = [] from fun w => rfl,
    show ∀ w : Str, radiusClasses [((("padding-left").data), w)] = [] from fun w => rfl,
    show ∀ w : Str, borderClasses [((("padding-left").data), w)] = [] from fun w => rfl,
    show ∀ w : Str, bgClasses [((("padding-left").data), w)] = [] from fun w => rfl,
    show ∀ w : Str, opacityClasses [((("padding-left").data), w)] = [] from fun w => rfl,
    show ∀ w : Str, shadowClasses [((("padding-left").data), w)] = [] from fun w => rfl,
    List.nil_append, List.append_nil]

theorem toTailwindSinglePaddingRight (v : Str) :
    toTailwind [((("padding-right").data), v)] =
      spacingClasses [((("padding-right").data), v)] := by
  simp only [toTailwind,
    show ∀ w : Str, colorClasses [((("padding-right").data), w)] = [] from fun w => rfl,
    show ∀ w : Str, textAlignClasses [((("padding-right").data), w)] = [] from fun w => rfl,
    show ∀ w : Str, decorationLineClasses [((("padding-right").data), w)] = [] from fun w => rfl,
    show ∀ w : Str, decorationStyleClasses [((("padding-right").data), w)] = [] from fun w => rfl,
    show ∀ w : Str, skipInkClasses [((("padding-right").data), w)] = [] from fun w => rfl,
    show ∀ w : Str, thicknessClasses [((("padding-right").data), w)] = [] from fun w => rfl,
    show ∀ w : Str, underlineOffsetClasses [((("padding-right").data), w)] = [] from fun w => rfl,
    show ∀ w : Str, underlinePositionClasses [((("padding-right").data), w)] = [] from fun w => rfl,
    show ∀ w : Str, fontSizeClasses [((("padding-right").data), w)] = [] from fun w => rfl,
    show ∀ w : Str, fontWeightClasses [((("padding-right").data), w)] = [] from fun w => rfl,
    show ∀ w : Str, lineHeightClasses [((("padding-right").data), w)] = [] from fun w => rfl,
    show ∀ w : Str, letterSpacingClasses [((("padding-right").data), w)] = [] from fun w => rfl,
    show ∀ w : Str, fontFamilyClasses [((("padding-right").data), w)] = [] from fun w => rfl,
    show ∀ w : Str, fontStyleClasses [((("padding-right").data), w)] = [] from fun w => rfl,
    show ∀ w : Str, widthClasses [((("padding-right").data), w)] = [] from fun w => rfl,
    show ∀ w : Str, heightClasses [((("padding-right").data), w)] = [] from fun w => rfl,
    show ∀ w : Str, radiusClasses [((("padding-right").data), w)] = [] from fun w => rfl,
    show ∀ w : Str, borderClasses [((("padding-right").data), w)] = [] from fun w => rfl,
    show ∀ w : Str, bgClasses [((("padding-right").data), w)] = [] from fun w => rfl,
    show ∀ w : Str, opacityClasses [((("padding-right").data), w)] = [] from fun w => rfl,
    show ∀ w : Str, shadowClasses [((("padding-right").data), w)] = [] from fun w => rfl,
    List.nil_append, List.append_nil]

theorem toTailwindSingleWidth (v : Str) :
    toTailwind [((("width").data), v)] =
      widthClasses [((("width").data), v)] := by
  simp only [toTailwind,
    show ∀ w : Str, colorClasses [((("width").data), w)] = [] from fun w => rfl,
    show ∀ w : Str, textAlignClasses [((("width").data), w)] = [] from fun w => rfl,
    show ∀ w : Str, decorationLineClasses [((("width").data), w)] = [] from fun w => rfl,
    show ∀ w : Str, decorationStyleClasses [((("width").data), w)] = [] from fun w => rfl,
    show ∀ w : Str, skipInkClasses [((("width").data), w)] = [] from fun w => rfl,
    show ∀ w : Str, thicknessClasses [((("width").data), w)] = [] from fun w => rfl,
    show ∀ w : Str, underlineOffsetClasses [((("width").data), w)] = [] from fun w => rfl,
    show ∀ w : Str, underlinePositionClasses [((("width").data), w)] = [] from fun w => rfl,
    show ∀ w : Str, fontSizeClasses [((("width").data), w)] = [] from fun w => rfl,
    show ∀ w : Str, fontWeightClasses [((("width").data), w)] = [] from fun w => rfl,
    show ∀ w : Str, lineHeightClasses [((("width").data), w)] = [] from fun w => rfl,
    show ∀ w : Str, letterSpacingClasses [((("width").data), w)] = [] from fun w => rfl,
    show ∀ w : Str, fontFamilyClasses [((("width").data), w)] = [] from fun w => rfl,
    show ∀ w : Str, fontStyleClasses [((("width").data), w)] = [] from fun w => rfl,
    show ∀ w : Str, spacingClasses [((("width").data), w)] = [] from fun w => rfl,
    show ∀ w : Str, heightClasses [((("width").data), w)] = [] from fun w => rfl,
    show ∀ w : Str, radiusClasses [((("width").data), w)] = [] from fun w => rfl,
    show ∀ w : Str, borderClasses [((("width").data), w)] = [] from fun w => rfl,
    show ∀ w : Str, bgClasses [((("width").data), w)] = [] from fun w => rfl,
    show ∀ w : Str, opacityClasses [((("width").data), w)] = [] from fun w => rfl,
    show ∀ w : Str, shadowClasses [((("width").data), w)] = [] from fun w => rfl,
    List.nil_append, List.append_nil]

theorem toTailwindSingleHeight (v : Str) :
    toTailwind [((("height").data), v)] =
      heightClasses [((("height").data), v)] := by
  simp only [toTailwind,
    show ∀ w : Str, colorClasses [((("height").data), w)] = [] from fun w => rfl,
    show ∀ w : Str, textAlignClasses [((("height").data), w)] = [] from fun w => rfl,
    show ∀ w : Str, decorationLineClasses [((("height").data), w)] = [] from fun w => rfl,
    show ∀ w : Str, decorationStyleClasses [((("height").data), w)] = [] from fun w => rfl,
    show ∀ w : Str, skipInkClasses [((("height").data), w)] = [] from fun w => rfl,
    show ∀ w : Str, thicknessClasses [((("height").data), w)] = [] from fun w => rfl,
    show ∀ w : Str, underlineOffsetClasses [((("height").data), w)] = [] from fun w => rfl,
    show ∀ w : Str, underlinePositionClasses [((("height").data), w)] = [] from fun w => rfl,
    show ∀ w : Str, fontSizeClasses [((("height").data), w)] = [] from fun w => rfl,
    show ∀ w : Str, fontWeightClasses [((("height").data), w)] = [] from fun w => rfl,
    show ∀ w : Str, lineHeightClasses [((("height").data), w)] = [] from fun w => rfl,
    show ∀ w : Str, letterSpacingClasses [((("height").data), w)] = [] from fun w => rfl,
    show ∀ w : Str, fontFamilyClasses [((("height").data), w)] = [] from fun w => rfl,
    show ∀ w : Str, fontStyleClasses [((("height").data), w)] = [] from fun w => rfl,
    show ∀ w : Str, spacingClasses [((("height").data), w)] = [] from fun w => rfl,
    show ∀ w : Str, widthClasses [((("height").data), w)] = [] from fun w => rfl,
    show ∀ w : Str, radiusClasses [((("height").data), w)] = [] from fun w => rfl,
    show ∀ w : Str, borderClasses [((("height").data), w)] = [] from fun w => rfl,
    show ∀ w : Str, bgClasses [((("height").data), w)] = [] from fun w => rfl,
    show ∀ w : Str, opacityClasses [((("height").data), w)] = [] from fun w => rfl,
    show ∀ w : Str, shadowClasses [((("height").data), w)] = [] from fun w => rfl,
    List.nil_append, List.append_nil]

theorem toTailwindSingleRadius (v : Str) :
    toTailwind [((("border-radius").data), v)] =
      radiusClasses [((("border-radius").data), v)] := by
  simp only [toTailwind,
    show ∀ w : Str, colorClasses [((("border-radius").data), w)] = [] from fun w => rfl,
    show ∀ w : Str, textAlignClasses [((("border-radius").data), w)] = [] from fun w => rfl,
    show ∀ w : Str, decorationLineClasses [((("border-radius").data), w)] = [] from fun w => rfl,
    show ∀ w : Str, decorationStyleClasses [((("border-radius").data), w)] = [] from fun w => rfl,
    show ∀ w : Str, skipInkClasses [((("border-radius").data), w)] = [] from fun w => rfl,
    show ∀ w : Str, thicknessClasses [((("border-radius").data), w)] = [] from fun w => rfl,
    show ∀ w : Str, underlineOffsetClasses [((("border-radius").data), w)] = [] from fun w => rfl,
    show ∀ w : Str, underlinePositionClasses [((("border-radius").data), w)] = [] from fun w => rfl,
    show ∀ w : Str, fontSizeClasses [((("border-radius").data), w)] = [] from fun w => rfl,
    show ∀ w : Str, fontWeightClasses [((("border-radius").data), w)] = [] from fun w => rfl,
    show ∀ w : Str, lineHeightClasses [((("border-radius").data), w)] = [] from fun w => rfl,
    show ∀ w : Str, letterSpacingClasses [((("border-radius").data), w)] = [] from fun w => rfl,
    show ∀ w : Str, fontFamilyClasses [((("border-radius").data), w)] = [] from fun w => rfl,
    show ∀ w : Str, fontStyleClasses [((("border-radius").data), w)] = [] from fun w => rfl,
    show ∀ w : Str, spacingClasses [((("border-radius").data), w)] = [] from fun w => rfl,
    show ∀ w : Str, widthClasses [((("border-radius").data), w)] = [] from fun w => rfl,
    show ∀ w : Str, heightClasses [((("border-radius").data), w)] = [] from fun w => rfl,
    show ∀ w : Str, borderClasses [((("border-radius").data), w)] = [] from fun w => rfl,
    show ∀ w : Str, bgClasses [((("border-radius").data), w)] = [] from fun w => rfl,
    show ∀ w : Str, opacityClasses [((("border-radius").data), w)] = [] from fun w => rfl,
    show ∀ w : Str, shadowClasses [((("border-radius").data), w)] = [] from fun w => rfl,
    List.nil_append, List.append_nil]

theorem toTailwindSingleBg (v : Str) :
    toTailwind [((("background-color").data), v)] =
      bgClasses [((("background-color").data), v)] := by
  simp only [toTailwind,
    show ∀ w : Str, colorClasses [((("background-color").data), w)] = [] from fun w => rfl,
    show ∀ w : Str, textAlignClasses [((("background-color").data), w)] = [] from fun w => rfl,
    show ∀ w : Str, decorationLineClasses [((("background-color").data), w)] = [] from fun w => rfl,
    show ∀ w : Str, decorationStyleClasses [((("background-color").data), w)] = [] from fun w => rfl,
    show ∀ w : Str, skipInkClasses [((("background-color").data), w)] = [] from fun w => rfl,
    show ∀ w : Str, thicknessClasses [((("background-color").data), w)] = [] from fun w => rfl,
    show ∀ w : Str, underlineOffsetClasses [((("background-color").data), w)] = [] from fun w => rfl,
    show ∀ w : Str, underlinePositionClasses [((("background-color").data), w)] = [] from fun w => rfl,
    show ∀ w : Str, fontSizeClasses [((("background-color").data), w)] = [] from fun w => rfl,
    show ∀ w : Str, fontWeightClasses [((("background-color").data), w)] = [] from fun w => rfl,
    show ∀ w : Str, lineHeightClasses [((("background-color").data), w)] = [] from fun w => rfl,
    show ∀ w : Str, letterSpacingClasses [((("background-color").data), w)] = [] from fun w => rfl,
    show ∀ w : Str, fontFamilyClasses [((("background-color").data), w)] = [] from fun w => rfl,
    show ∀ w : Str, fontStyleClasses [((("background-color").data), w)] = [] from fun w => rfl,
    show ∀ w : Str, spacingClasses [((("background-color").data), w)] = [] from fun w => rfl,
    show ∀ w : Str, widthClasses [((("background-color").data), w)] = [] from fun w => rfl,
    show ∀ w : Str, heightClasses [((("background-color").data), w)] = [] from fun w => rfl,
    show ∀ w : Str, radiusClasses [((("background-color").data), w)] = [] from fun w => rfl,
    show ∀ w : Str, borderClasses [((("background-color").data), w)] = [] from fun w => rfl,
    show ∀ w : Str, opacityClasses [((("background-color").data), w)] = [] from fun w => rfl,
    show ∀ w : Str, shadowClasses [((("background-color").data), w)] = [] from fun w => rfl,
    List.nil_append, List.append_nil]

theorem toTailwindSingleOpacity (v : Str) :
    toTailwind [((("opacity").data), v)] =
      opacityClasses [((("opacity").data), v)] := by
  simp only [toTailwind,
    show ∀ w : Str, colorClasses [((("opacity").data), w)] = [] from fun w => rfl,
    show ∀ w : Str, textAlignClasses [((("opacity").data), w)] = [] from fun w => rfl,
    show ∀ w : Str, decorationLineClasses [((("opacity").data), w)] = [] from fun w => rfl,
    show ∀ w : Str, decorationStyleClasses [((("opacity").data), w)] = [] from fun w => rfl,
    show ∀ w : Str, skipInkClasses [((("opacity").data), w)] = [] from fun w => rfl,
    show ∀ w : Str, thicknessClasses [((("opacity").data), w)] = [] from fun w => rfl,
    show ∀ w : Str, underlineOffsetClasses [((("opacity").data), w)] = [] from fun w => rfl,
    show ∀ w : Str, underlinePositionClasses [((("opacity").data), w)] = [] from fun w => rfl,
    show ∀ w : Str, fontSizeClasses [((("opacity").data), w)] = [] from fun w => rfl,
    show ∀ w : Str, fontWeightClasses [((("opacity").data), w)] = [] from fun w => rfl,
    show ∀ w : Str, lineHeightClasses [((("opacity").data), w)] = [] from fun w => rfl,
    show ∀ w : Str, letterSpacingClasses [((("opacity").data), w)] = [] from fun w => rfl,
    show ∀ w : Str, fontFamilyClasses [((("opacity").data), w)] = [] from fun w => rfl,
    show ∀ w : Str, fontStyleClasses [((("opacity").data), w)] = [] from fun w => rfl,
    show ∀ w : Str, spacingClasses [((("opacity").data), w)] = [] from fun w => rfl,
    show ∀ w : Str, widthClasses [((("opacity").data), w)] = [] from fun w => rfl,
    show ∀ w : Str, heightClasses [((("opacity").data), w)] = [] from fun w => rfl,
    show ∀ w : Str, radiusClasses [((("opacity").data), w)] = [] from fun w => rfl,
    show ∀ w : Str, borderClasses [((("opacity").data), w)] = [] from fun w => rfl,
    show ∀ w : Str, bgClasses [((("opacity").data), w)] = [] from fun w => rfl,
    show ∀ w : Str, shadowClasses [((("opacity").data), w)] = [] from fun w => rfl,
    List.nil_append, List.append_nil]

theorem toTailwindSingleShadow (v : Str) :
    toTailwind [((("box-shadow").data), v)] =
      shadowClasses [((("box-shadow").data), v)] := by
  simp only [toTailwind,
    show ∀ w : Str, colorClasses [((("box-shadow").data), w)] = [] from fun w => rfl,
    show ∀ w : Str, textAlignClasses [((("box-shadow").data), w)] = [] from fun w => rfl,
    show ∀ w : Str, decorationLineClasses [((("box-shadow").data), w)] = [] from fun w => rfl,
    show ∀ w : Str, decorationStyleClasses [((("box-shadow").data), w)] = [] from fun w => rfl,
    show ∀ w : Str, skipInkClasses [((("box-shadow").data), w)] = [] from fun w => rfl,
    show ∀ w : Str, thicknessClasses [((("box-shadow").data), w)] = [] from fun w => rfl,
    show ∀ w : Str, underlineOffsetClasses [((("box-shadow").data), w)] = [] from fun w => rfl,
    show ∀ w : Str, underlinePositionClasses [((("box-shadow").data), w)] = [] from fun w => rfl,
    show ∀ w : Str, fontSizeClasses [((("box-shadow").data), w)] = [] from fun w => rfl,
    show ∀ w : Str, fontWeightClasses [((("box-shadow").data), w)] = [] from fun w => rfl,
    show ∀ w : Str, lineHeightClasses [((("box-shadow").data), w)] = [] from fun w => rfl,
    show ∀ w : Str, letterSpacingClasses [((("box-shadow").data), w)] = [] from fun w => rfl,
    show ∀ w : Str, fontFamilyClasses [((("box-shadow").data), w)] = [] from fun w => rfl,
    show ∀ w : Str, fontStyleClasses [((("box-shadow").data), w)] = [] from fun w => rfl,
    show ∀ w : Str, spacingClasses [((("box-shadow").data), w)] = [] from fun w => rfl,
    show ∀ w : Str, widthClasses [((("box-shadow").data), w)] = [] from fun w => rfl,
    show ∀ w : Str, heightClasses [((("box-shadow").data), w)] = [] from fun w => rfl,
    show ∀ w : Str, radiusClasses [((("box-shadow").data), w)] = [] from fun w => rfl,
    show ∀ w : Str, borderClasses [((("box-shadow").data), w)] = [] from fun w => rfl,
    show ∀ w : Str, bgClasses [((("box-shadow").data), w)] = [] from fun w => rfl,
    show ∀ w : Str, opacityClasses [((("box-shadow").data), w)] = [] from fun w => rfl,
    List.nil_append, List.append_nil]

theorem toTailwindSingleBorder (v : Str) :
    toTailwind [((("border").data), v)] =
      borderClasses [((("border").data), v)] := by
  simp only [toTailwind,
    show ∀ w : Str, colorClasses [((("border").data), w)] = [] from fun w => rfl,
    show ∀ w : Str, textAlignClasses [((("border").data), w)] = [] from fun w => rfl,
    show ∀ w : Str, decorationLineClasses [((("border").data), w)] = [] from fun w => rfl,
    show ∀ w : Str, decorationStyleClasses [((("border").data), w)] = [] from fun w => rfl,
    show ∀ w : Str, skipInkClasses [((("border").data), w)] = [] from fun w => rfl,
    show ∀ w : Str, thicknessClasses [((("border").data), w)] = [] from fun w => rfl,
    show ∀ w : Str, underlineOffsetClasses [((("border").data), w)] = [] from fun w => rfl,
    show ∀ w : Str, underlinePositionClasses [((("border").data), w)] = [] from fun w => rfl,
    show ∀ w : Str, fontSizeClasses [((("border").data), w)] = [] from fun w => rfl,
    show ∀ w : Str, fontWeightClasses [((("border").data), w)] = [] from fun w => rfl,
    show ∀ w : Str, lineHeightClasses [((("border").data), w)] = [] from fun w => rfl,
    show ∀ w : Str, letterSpacingClasses [((("border").data), w)] = [] from fun w => rfl,
    show ∀ w : Str, fontFamilyClasses [((("border").data), w)] = [] from fun w => rfl,
    show ∀ w : Str, fontStyleClasses [((("border").data), w)] = [] from fun w => rfl,
    show ∀ w : Str, spacingClasses [((("border").data), w)] = [] from fun w => rfl,
    show ∀ w : Str, widthClasses [((("border").data), w)] = [] from fun w => rfl,
    show ∀ w : Str, heightClasses [((("border").data), w)] = [] from fun w => rfl,
    show ∀ w : Str, radiusClasses [((("border").data), w)] = [] from fun w => rfl,
    show ∀ w : Str, bgClasses [((("border").data), w)] = [] from fun w => rfl,
    show ∀ w : Str, opacityClasses [((("border").data), w)] = [] from fun w => rfl,
    show ∀ w : Str, shadowClasses [((("border").data), w)] = [] from fun w => rfl,
    List.nil_append, List.append_nil]

theorem spacingSingleMargin (v : Str) (hv : v ≠ []) :
    spacingClasses [((("margin").data), v)] =
      [(("m").data) ++ (("-[").data) ++ v ++ (("]").data)] := by
  simp only [spacingClasses, spacingPairs, List.map_cons, List.map_nil,
    List.flatten_cons, List.flatten_nil,
    show ∀ (w : Str) (f : Str → List Str), emit [((("margin").data), w)] (("margin-top").data) f = [] from fun w f => rfl,
    show ∀ (w : Str) (f : Str → List Str), emit [((("margin").data), w)] (("margin-bottom").data) f = [] from fun w f => rfl,
    show ∀ (w : Str) (f : Str → List Str), emit [((("margin").data), w)] (("margin-left").data) f = [] from fun w f => rfl,
    show ∀ (w : Str) (f : Str → List Str), emit [((("margin").data), w)] (("margin-right").data) f = [] from fun w f => rfl,
    show ∀ (w : Str) (f : Str → List Str), emit [((("margin").data), w)] (("padding").data) f = [] from fun w f => rfl,
    show ∀ (w : Str) (f : Str → List Str), emit [((("margin").data), w)] (("padding-top").data) f = [] from fun w f => rfl,
    show ∀ (w : Str) (f : Str → List Str), emit [((("margin").data), w)] (("padding-bottom").data) f = [] from fun w f => rfl,
    show ∀ (w : Str) (f : Str → List Str), emit [((("margin").data), w)] (("padding-left").data) f = [] from fun w f => rfl,
    show ∀ (w : Str) (f : Str → List Str), emit [((("margin").data), w)] (("padding-right").data) f = [] from fun w f => rfl,
    List.nil_append, List.append_nil]
  rw [emit_single_self _ _ _ hv]

theorem spacingSingleMarginTop (v : Str) (hv : v ≠ []) :
    spacingClasses [((("margin-top").data), v)] =
      [(("mt").data) ++ (("-[").data) ++ v ++ (("]").data)] := by
  simp only [spacingClasses, spacingPairs, List.map_cons, List.map_nil,
    List.flatten_cons, List.flatten_nil,
    show ∀ (w : Str) (f : Str → List Str), emit [((("margin-top").data), w)] (("margin").data) f = [] from fun w f => rfl,
    show ∀ (w : Str) (f : Str → List Str), emit [((("margin-top").data), w)] (("margin-bottom").data) f = [] from fun w f => rfl,
    show ∀ (w : Str) (f : Str → List Str), emit [((("margin-top").data), w)] (("margin-left").data) f = [] from fun w f => rfl,
    show ∀ (w : Str) (f : Str → List Str), emit [((("margin-top").data), w)] (("margin-right").data) f = [] from fun w f => rfl,
    show ∀ (w : Str) (f : Str → List Str), emit [((("margin-top").data), w)] (("padding").data) f = [] from fun w f => rfl,
    show ∀ (w : Str) (f : Str → List Str), emit [((("margin-top").data), w)] (("padding-top").data) f = [] from fun w f => rfl,
    show ∀ (w : Str) (f : Str → List Str), emit [((("margin-top").data), w)] (("padding-bottom").data) f = [] from fun w f => rfl,
    show ∀ (w : Str) (f : Str → List Str), emit [((("margin-top").data), w)] (("padding-left").data) f = [] from fun w f => rfl,
    show ∀ (w : Str) (f : Str → List Str), emit [((("margin-top").data), w)] (("padding-right").data) f = [] from fun w f => rfl,
    List.nil_append, List.append_nil]
  rw [emit_single_self _ _ _ hv]

theorem spacingSingleMarginBottom (v : Str) (hv : v ≠ []) :
    spacingClasses [((("margin-bottom").data), v)] =
      [(("mb").data) ++ (("-[").data) ++ v ++ (("]").data)] := by
  simp only [spacingClasses, spacingPairs, List.map_cons, List.map_nil,
    List.flatten_cons, List.flatten_nil,
    show ∀ (w : Str) (f : Str → List Str), emit [((("margin-bottom").data), w)] (("margin").data) f = [] from fun w f => rfl,
    show ∀ (w : Str) (f : Str → List Str), emit [((("margin-bottom").data), w)] (("margin-top").data) f = [] from fun w f => rfl,
    show ∀ (w : Str) (f : Str → List Str), emit [((("margin-bottom").data), w)] (("margin-left").data) f = [] from fun w f => rfl,
    show ∀ (w : Str) (f : Str → List Str), emit [((("margin-bottom").data), w)] (("margin-right").data) f = [] from fun w f => rfl,
    show ∀ (w : Str) (f : Str → List Str), emit [((("margin-bottom").data), w)] (("padding").data) f = [] from fun w f => rfl,
    show ∀ (w : Str) (f : Str → List Str), emit [((("margin-bottom").data), w)] (("padding-top").data) f = [] from fun w f => rfl,
    show ∀ (w : Str) (f : Str → List Str), emit [((("margin-bottom").data), w)] (("padding-bottom").data) f = [] from fun w f => rfl,
    show ∀ (w : Str) (f : Str → List Str), emit [((("margin-bottom").data), w)] (("padding-left").data) f = [] from fun w f => rfl,
    show ∀ (w : Str) (f : Str → List Str), emit [((("margin-bottom").data), w)] (("padding-right").data) f = [] from fun w f => rfl,
    List.nil_append, List.append_nil]
  rw [emit_single_self _ _ _ hv]

theorem spacingSingleMarginLeft (v : Str) (hv : v ≠ []) :
    spacingClasses [((("margin-left").data), v)] =
      [(("ml").data) ++ (("-[").data) ++ v ++ (("]").data)] := by
  simp only [spacingClasses, spacingPairs, List.map_cons, List.map_nil,
    List.flatten_cons, List.flatten_nil,
    show ∀ (w : Str) (f : Str → List Str), emit [((("margin-left").data), w)] (("margin").data) f = [] from fun w f => rfl,
    show ∀ (w : Str) (f : Str → List Str), emit [((("margin-left").data), w)] (("margin-top").data) f = [] from fun w f => rfl,
    show ∀ (w : Str) (f : Str → List Str), emit [((("margin-left").data), w)] (("margin-bottom").data) f = [] from fun w f => rfl,
    show ∀ (w : Str) (f : Str → List Str), emit [((("margin-left").data), w)] (("margin-right").data) f = [] from fun w f => rfl,
    show ∀ (w : Str) (f : Str → List Str), emit [((("margin-left").data), w)] (("padding").data) f = [] from fun w f => rfl,
    show ∀ (w : Str) (f : Str → List Str), emit [((("margin-left").data), w)] (("padding-top").data) f = [] from fun w f => rfl,
    show ∀ (w : Str) (f : Str → List Str), emit [((("margin-left").data), w)] (("padding-bottom").data) f = [] from fun w f => rfl,
    show ∀ (w : Str) (f : Str → List Str), emit [((("margin-left").data), w)] (("padding-left").data) f = [] from fun w f => rfl,
    show ∀ (w : Str) (f : Str → List Str), emit [((("margin-left").data), w)] (("padding-right").data) f = [] from fun w f => rfl,
    List.nil_append, List.append_nil]
  rw [emit_single_self _ _ _ hv]

theorem spacingSingleMarginRight (v : Str) (hv : v ≠ []) :
    spacingClasses [((("margin-right").data), v)] =
      [(("mr").data) ++ (("-[").data) ++ v ++ (("]").data)] := by
  simp only [spacingClasses, spacingPairs, List.map_cons, List.map_nil,
    List.flatten_cons, List.flatten_nil,
    show ∀ (w : Str) (f : Str → List Str), emit [((("margin-right").data), w)] (("margin").data) f = [] from fun w f => rfl,
    show ∀ (w : Str) (f : Str → List Str), emit [((("margin-right").data), w)] (("margin-top").data) f = [] from fun w f => rfl,
    show ∀ (w : Str) (f : Str → List Str), emit [((("margin-right").data), w)] (("margin-bottom").data) f = [] from fun w f => rfl,
    show ∀ (w : Str) (f : Str → List Str), emit [((("margin-right").data), w)] (("margin-left").data) f = [] from fun w f => rfl,
    show ∀ (w : Str) (f : Str → List Str), emit [((("margin-right").data), w)] (("padding").data) f = [] from fun w f => rfl,
    show ∀ (w : Str) (f : Str → List Str), emit [((("margin-right").data), w)] (("padding-top").data) f = [] from fun w f => rfl,
    show ∀ (w : Str) (f : Str → List Str), emit [((("margin-right").data), w)] (("padding-bottom").data) f = [] from fun w f => rfl,
    show ∀ (w : Str) (f : Str → List Str), emit [((("margin-right").data), w)] (("padding-left").data) f = [] from fun w f => rfl,
    show ∀ (w : Str) (f : Str → List Str), emit [((("margin-right").data), w)] (("padding-right").data) f = [] from fun w f => rfl,
    List.nil_append, List.append_nil]
  rw [emit_single_self _ _ _ hv]

theorem spacingSinglePadding (v : Str) (hv : v ≠ []) :
    spacingClasses [((("padding").data), v)] =
      [(("p").data) ++ (("-[").data) ++ v ++ (("]").data)] := by
  simp only [spacingClasses, spacingPairs, List.map_cons, List.map_nil,
    List.flatten_cons, List.flatten_nil,
    show ∀ (w : Str) (f : Str → List Str), emit [((("padding").data), w)] (("margin").data) f = [] from fun w f => rfl,
    show ∀ (w : Str) (f : Str → List Str), emit [((("padding").data), w)] (("margin-top").data) f = [] from fun w f => rfl,
    show ∀ (w : Str) (f : Str → List Str), emit [((("padding").data), w)] (("margin-bottom").data) f = [] from fun w f => rfl,
    show ∀ (w : Str) (f : Str → List Str), emit [((("padding").data), w)] (("margin-left").data) f = [] from fun w f => rfl,
    show ∀ (w : Str) (f : Str → List Str), emit [((("padding").data), w)] (("margin-right").data) f = [] from fun w f => rfl,
    show ∀ (w : Str) (f : Str → List Str), emit [((("padding").data), w)] (("padding-top").data) f = [] from fun w f => rfl,
    show ∀ (w : Str) (f : Str → List Str), emit [((("padding").data), w)] (("padding-bottom").data) f = [] from fun w f => rfl,
    show ∀ (w : Str) (f : Str → List Str), emit [((("padding").data), w)] (("padding-left").data) f = [] from fun w f => rfl,
    show ∀ (w : Str) (f : Str → List Str), emit [((("padding").data), w)] (("padding-right").data) f = [] from fun w f => rfl,
    List.nil_append, List.append_nil]
  rw [emit_single_self _ _ _ hv]

theorem spacingSinglePaddingTop (v : Str) (hv : v ≠ []) :
    spacingClasses [((("padding-top").data), v)] =
      [(("pt").data) ++ (("-[").data) ++ v ++ (("]").data)] := by
  simp only [spacingClasses, spacingPairs, List.map_cons, List.map_nil,
    List.flatten_cons, List.flatten_nil,
    show ∀ (w : Str) (f : Str → List Str), emit [((("padding-top").data), w)] (("margin").data) f = [] from fun w f => rfl,
    show ∀ (w : Str) (f : Str → List Str), emit [((("padding-top").data), w)] (("margin-top").data) f = [] from fun w f => rfl,
    show ∀ (w : Str) (f : Str → List Str), emit [((("padding-top").data), w)] (("margin-bottom").data) f = [] from fun w f => rfl,
    show ∀ (w : Str) (f : Str → List Str), emit [((("padding-top").data), w)] (("margin-left").data) f = [] from fun w f => rfl,
    show ∀ (w : Str) (f : Str → List Str), emit [((("padding-top").data), w)] (("margin-right").data) f = [] from fun w f => rfl,
    show ∀ (w : Str) (f : Str → List Str), emit [((("padding-top").data), w)] (("padding").data) f = [] from fun w f => rfl,
    show ∀ (w : Str) (f : Str → List Str), emit [((("padding-top").data), w)] (("padding-bottom").data) f = [] from fun w f => rfl,
    show ∀ (w : Str) (f : Str → List Str), emit [((("padding-top").data), w)] (("padding-left").data) f = [] from fun w f => rfl,
    show ∀ (w : Str) (f : Str → List Str), emit [((("padding-top").data), w)] (("padding-right").data) f = [] from fun w f => rfl,
    List.nil_append, List.append_nil]
  rw [emit_single_self _ _ _ hv]

theorem spacingSinglePaddingBottom (v : Str) (hv : v ≠ []) :
    spacingClasses [((("padding-bottom").data), v)] =
      [(("pb").data) ++ (("-[").data) ++ v ++ (("]").data)] := by
  simp only [spacingClasses, spacingPairs, List.map_cons, List.map_nil,
    List.flatten_cons, List.flatten_nil,
    show ∀ (w : Str) (f : Str → List Str), emit [((("padding-bottom").data), w)] (("margin").data) f = [] from fun w f => rfl,
    show ∀ (w : Str) (f : Str → List Str), emit [((("padding-bottom").data), w)] (("margin-top").data) f = [] from fun w f => rfl,
    show ∀ (w : Str) (f : Str → List Str), emit [((("padding-bottom").data), w)] (("margin-bottom").data) f = [] from fun w f => rfl,
    show ∀ (w : Str) (f : Str → List Str), emit [((("padding-bottom").data), w)] (("margin-left").data) f = [] from fun w f => rfl,
    show ∀ (w : Str) (f : Str → List Str), emit [((("padding-bottom").data), w)] (("margin-right").data) f = [] from fun w f => rfl,
    show ∀ (w : Str) (f : Str → List Str), emit [((("padding-bottom").data), w)] (("padding").data) f = [] from fun w f => rfl,
    show ∀ (w : Str) (f : Str → List Str), emit [((("padding-bottom").data), w)] (("padding-top").data) f = [] from fun w f => rfl,
    show ∀ (w : Str) (f : Str → List Str), emit [((("padding-bottom").data), w)] (("padding-left").data) f = [] from fun w f => rfl,
    show ∀ (w : Str) (f : Str → List Str), emit [((("padding-bottom").data), w)] (("padding-right").data) f = [] from fun w f => rfl,
    List.nil_append, List.append_nil]
  rw [emit_single_self _ _ _ hv]

theorem spacingSinglePaddingLeft (v : Str) (hv : v ≠ []) :
    spacingClasses [((("padding-left").data), v)] =
      [(("pl").data) ++ (("-[").data) ++ v ++ (("]").data)] := by
  simp only [spacingClasses, spacingPairs, List.map_cons, List.map_nil,
    List.flatten_cons, List.flatten_nil,
    show ∀ (w : Str) (f : Str → List Str), emit [((("padding-left").data), w)] (("margin").data) f = [] from fun w f => rfl,
    show ∀ (w : Str) (f : Str → List Str), emit [((("padding-left").data), w)] (("margin-top").data) f = [] from fun w f => rfl,
    show ∀ (w : Str) (f : Str → List Str), emit [((("padding-left").data), w)] (("margin-bottom").data) f = [] from fun w f => rfl,
    show ∀ (w : Str) (f : Str → List Str), emit [((("padding-left").data), w)] (("margin-left").data) f = [] from fun w f => rfl,
    show ∀ (w : Str) (f : Str → List Str), emit [((("padding-left").data), w)] (("margin-right").data) f = [] from fun w f => rfl,
    show ∀ (w : Str) (f : Str → List Str), emit [((("padding-left").data), w)] (("padding").data) f = [] from fun w f => rfl,
    show ∀ (w : Str) (f : Str → List Str), emit [((("padding-left").data), w)] (("padding-top").data) f = [] from fun w f => rfl,
    show ∀ (w : Str) (f : Str → List Str), emit [((("padding-left").data), w)] (("padding-bottom").data) f = [] from fun w f => rfl,
    show ∀ (w : Str) (f : Str → List Str), emit [((("padding-left").data), w)] (("padding-right").data) f = [] from fun w f => rfl,
    List.nil_append, List.append_nil]
  rw [emit_single_self _ _ _ hv]

theorem spacingSinglePaddingRight (v : Str) (hv : v ≠ []) :
    spacingClasses [((("padding-right").data), v)] =
      [(("pr").data) ++ (("-[").data) ++ v ++ (("]").data)] := by
  simp only [spacingClasses, spacingPairs, List.map_cons, List.map_nil,
    List.flatten_cons, List.flatten_nil,
    show ∀ (w : Str) (f : Str → List Str), emit [((("padding-right").data), w)] (("margin").data) f = [] from fun w f => rfl,
    show ∀ (w : Str) (f : Str → List Str), emit [((("padding-right").data), w)] (("margin-top").data) f = [] from fun w f => rfl,
    show ∀ (w : Str) (f : Str → List Str), emit [((("padding-right").data), w)] (("margin-bottom").data) f = [] from fun w f => rfl,
    show ∀ (w : Str) (f : Str → List Str), emit [((("padding-right").data), w)] (("margin-left").data) f = [] from fun w f => rfl,
    show ∀ (w : Str) (f : Str → List Str), emit [((("padding-right").data), w)] (("margin-right").data) f = [] from fun w f => rfl,
    show ∀ (w : Str) (f : Str → List Str), emit [((("padding-right").data), w)] (("padding").data) f = [] from fun w f => rfl,
    show ∀ (w : Str) (f : Str → List Str), emit [((("padding-right").data), w)] (("padding-top").data) f = [] from fun w f => rfl,
    show ∀ (w : Str) (f : Str → List Str), emit [((("padding-right").data), w)] (("padding-bottom").data) f = [] from fun w f => rfl,
    show ∀ (w : Str) (f : Str → List Str), emit [((("padding-right").data), w)] (("padding-left").data) f = [] from fun w f => rfl,
    List.nil_append, List.append_nil]
  rw [emit_single_self _ _ _ hv]


/-- C3 (counterexample): the independence of occurrence resolution
fails once a dictionary value itself contains a `var(` occurrence.
With dictionary `{--a: "var(--b, 2)"}` the assembled value
`var(--a, x) var(--b, 2)` resolves to `__DICT__2 var(--b, 2)`: the
first replacement splices `var(--b, 2)` into the output and the second
match then rewrites text inside it, leaving the original second
occurrence untouched — not the occurrence-wise result
`__DICT__var(--b, 2) 2`. -/
theorem var_resolution_counterexample :
    assembleVal []
        [(((("--a").data), ((" x").data)), ((" ").data)),
         (((("--b").data), ((" 2").data)), [])] =
      (("var(--a, x) var(--b, 2)").data) ∧
    resolveVars [((("--a").data), (("var(--b, 2)").data))]
        (("var(--a, x) var(--b, 2)").data) =
      (("__DICT__2 var(--b, 2)").data) ∧
    resolveVars [((("--a").data), (("var(--b, 2)").data))]
        (("var(--a, x) var(--b, 2)").data) ≠
      assembleRes [((("--a").data), (("var(--b, 2)").data))] []
        [(((("--a").data), ((" x").data)), ((" ").data)),
         (((("--b").data), ((" 2").data)), [])] := by
  refine ⟨by decide, by decide, by decide⟩

/-! ## Border shorthand on whitespace-free tokens -/

theorem splitWsF_nonws (s : Str) : s ≠ [] → (∀ c ∈ s, isWs c = false) →
    splitWsF true s = [s] ∧ splitWsF false s = [s] := by
  induction s with
  | nil => intro hne _; exact absurd rfl hne
  | cons c r ih =>
    intro _ h
    have hc : isWs c = false := h c (by simp)
    by_cases hr : r = []
    · subst hr
      constructor <;> simp [splitWsF, hc, consHead]
    · have ihr := ih hr (fun d hd => h d (List.mem_cons_of_mem c hd))
      constructor <;> simp [splitWsF, hc, ihr.2, consHead]

theorem jsSplitWs_nonws (v : Str) (hv : v ≠ [])
    (hws : ∀ c ∈ v, isWs c = false) : jsSplitWs v = [v] :=
  (splitWsF_nonws v hv hws).2

theorem jsTrim_nonws (v : Str) (hws : ∀ c ∈ v, isWs c = false) :
    jsTrim v = v :=
  jsTrim_eq_self v
    (fun c hc => hws c (List.mem_of_mem_head? hc))
    (fun c hc => hws c (List.mem_of_mem_getLast? hc))

theorem jsTrim_onepx (v : Str) (hv : v ≠ [])
    (hws : ∀ c ∈ v, isWs c = false) :
    jsTrim ( '1' :: 'p' :: 'x' :: ' ' :: v) =
      '1' :: 'p' :: 'x' :: ' ' :: v := by
  apply jsTrim_eq_self
  · intro c hc
    simp only [List.head?_cons, Option.some.injEq] at hc
    rw [← hc]
    decide
  · intro c hc
    rw [show ( '1' :: 'p' :: 'x' :: ' ' :: v) =
        ((['1', 'p', 'x', ' '] : Str) ++ v) from rfl] at hc
    rw [List.getLast?_append_of_ne_nil _ hv] at hc
    exact hws c (List.mem_of_mem_getLast? hc)

theorem jsSplitWs_onepx (v : Str) (hv : v ≠ [])
    (hws : ∀ c ∈ v, isWs c = false) :
    jsSplitWs ( '1' :: 'p' :: 'x' :: ' ' :: v) = [(("1px").data), v] := by
  show splitWsF false _ = _
  rw [show splitWsF false ( '1' :: 'p' :: 'x' :: ' ' :: v) =
      consHead '1' (consHead 'p' (consHead 'x'
        ([] :: splitWsF true v))) from rfl]
  rw [(splitWsF_nonws v hv hws).1]
  rfl

theorem borderClasses_single (v : Str) (hv : v ≠ []) :
    borderClasses [((("border").data), v)] =
      (borderOne (("border").data) v []).1 := by
  unfold borderClasses borderSides
  simp only [List.foldl_cons, List.foldl_nil]
  rw [show ∀ a : List Str × List Str, borderStep [((("border").data), v)] a
      ((("border-top").data), (("border-t").data)) = a from fun a => rfl]
  rw [show ∀ a : List Str × List Str, borderStep [((("border").data), v)] a
      ((("border-bottom").data), (("border-b").data)) = a from fun a => rfl]
  rw [show ∀ a : List Str × List Str, borderStep [((("border").data), v)] a
      ((("border-left").data), (("border-l").data)) = a from fun a => rfl]
  rw [show ∀ a : List Str × List Str, borderStep [((("border").data), v)] a
      ((("border-right").data), (("border-r").data)) = a from fun a => rfl]
  unfold borderStep
  rw [show getT [((("border").data), v)] ((("border").data)) =
      if v = [] then none else some v from rfl]
  rw [if_neg hv]
  simp

/-- C9 (amended): the mapper is total by construction (it is a Lean
function); for every nonempty whitespace-free value unknown to every
lookup table, not dictionary-tagged and distinct from every
special-cased keyword, every property mapping degrades to the
arbitrary-value bracket (or arbitrary-property) form — with two
verbatim exceptions: `text-align` emits `text-<value>` unchanged, and
the style token of the border shorthand emits `border-<style>`
unchanged. -/
theorem mapper_fallback_bracket (v : Str) (hv : v ≠ [])
    (hfw : fontWeightMap.lookup v = none)
    (hlh : lineHeightMap.lookup v = none)
    (hls : letterSpacingMap.lookup v = none)
    (hfs : fontSizeMap.lookup (pxStrip v) = none)
    (hdl1 : v ≠ (("underline").data)) (hdl2 : v ≠ (("line-through").data))
    (hdl3 : v ≠ (("overline").data)) (hnone : v ≠ (("none").data))
    (hds1 : v ≠ (("solid").data))
    (hds2 : textDecorationStyleMap.lookup v = none)
    (hauto : v ≠ (("auto").data))
    (hth1 : v ≠ (("1px").data)) (hth2 : v ≠ (("thin").data))
    (hth3 : v ≠ (("2px").data)) (hth4 : v ≠ (("medium").data))
    (hth5 : v ≠ (("4px").data)) (hth6 : v ≠ (("thick").data))
    (hup : v ≠ (("from-font").data))
    (hit : v ≠ (("italic").data)) (hnorm : v ≠ (("normal").data))
    (hnm : dictMarker.isPrefixOf v = false)
    (hbr2 : v ≠ (("0.25rem").data))
    (h0 : v ≠ (("0").data)) (h0px : v ≠ (("0px").data))
    (hrem : v ≠ (("0.0625rem").data))
    (hws : ∀ c ∈ v, isWs c = false) :
    toTailwind [((("color").data), v)] =
        [(("text-[").data) ++ v ++ (("]").data)] ∧
      toTailwind [((("text-align").data), v)] =
        [(("text-").data) ++ v] ∧
      toTailwind [((("text-decoration-line").data), v)] =
        [(("decoration-[").data) ++ v ++ (("]").data)] ∧
      toTailwind [((("text-decoration-style").data), v)] =
        [(("decoration-[").data) ++ v ++ (("]").data)] ∧
      toTailwind [((("text-decoration-skip-ink").data), v)] =
        [(("decoration-skip-ink-[").data) ++ v ++ (("]").data)] ∧
      toTailwind [((("text-decoration-thickness").data), v)] =
        [(("[text-decoration-thickness:").data) ++ v ++ (("]").data)] ∧
      toTailwind [((("text-underline-offset").data), v)] =
        [(("underline-offset-[").data) ++ v ++ (("]").data)] ∧
      toTailwind [((("text-underline-position").data), v)] =
        [(("[text-underline-position:").data) ++ v ++ (("]").data)] ∧
      toTailwind [((("font-size").data), v)] =
        [(("text-[").data) ++ pxStrip v ++ (("px]").data)] ∧
      toTailwind [((("font-weight").data), v)] =
        [(("font-[").data) ++ v ++ (("]").data)] ∧
      toTailwind [((("line-height").data), v)] =
        [(("leading-[").data) ++ v ++ (("]").data)] ∧
      toTailwind [((("letter-spacing").data), v)] =
        [(("tracking-[").data) ++ v ++ (("]").data)] ∧
      toTailwind [((("font-family").data), v)] =
        [(("font-[").data) ++ v ++ (("]").data)] ∧
      toTailwind [((("font-style").data), v)] =
        [(("font-[").data) ++ v ++ (("]").data)] ∧
      toTailwind [((("margin").data), v)] =
        [(("m-[").data) ++ v ++ (("]").data)] ∧
      toTailwind [((("margin-top").data), v)] =
        [(("mt-[").data) ++ v ++ (("]").data)] ∧
      toTailwind [((("margin-bottom").data), v)] =
        [(("mb-[").data) ++ v ++ (("]").data)] ∧
      toTailwind [((("margin-left").data), v)] =
        [(("ml-[").data) ++ v ++ (("]").data)] ∧
      toTailwind [((("margin-right").data), v)] =
        [(("mr-[").data) ++ v ++ (("]").data)] ∧
      toTailwind [((("padding").data), v)] =
        [(("p-[").data) ++ v ++ (("]").data)] ∧
      toTailwind [((("padding-top").data), v)] =
        [(("pt-[").data) ++ v ++ (("]").data)] ∧
      toTailwind [((("padding-bottom").data), v)] =
        [(("pb-[").data) ++ v ++ (("]").data)] ∧
      toTailwind [((("padding-left").data), v)] =
        [(("pl-[").data) ++ v ++ (("]").data)] ∧
      toTailwind [((("padding-right").data), v)] =
        [(("pr-[").data) ++ v ++ (("]").data)] ∧
      toTailwind [((("width").data), v)] =
        [(("w-[").data) ++ v ++ (("]").data)] ∧
      toTailwind [((("height").data), v)] =
        [(("h-[").data) ++ v ++ (("]").data)] ∧
      toTailwind [((("border-radius").data), v)] =
        [(("rounded-[").data) ++ v ++ (("]").data)] ∧
      toTailwind [((("border").data), v)] =
        [(("border-[").data) ++ v ++ (("]").data)] ∧
      toTailwind [((("border").data), (("1px ").data) ++ v)] =
        [(("border").data), (("border-").data) ++ v] ∧
      toTailwind [((("background-color").data), v)] =
        [(("bg-[").data) ++ v ++ (("]").data)] ∧
      toTailwind [((("opacity").data), v)] =
        [(("opacity-[").data) ++ v ++ (("]").data)] ∧
      toTailwind [((("box-shadow").data), v)] =
        [(("shadow-[").data) ++ v ++ (("]").data)] := by
  refine ⟨?_, ?_, ?_, ?_, ?_, ?_, ?_, ?_, ?_, ?_, ?_, ?_, ?_, ?_, ?_, ?_,
    ?_, ?_, ?_, ?_, ?_, ?_, ?_, ?_, ?_, ?_, ?_, ?_, ?_, ?_, ?_, ?_⟩
  · rw [toTailwindSingleColor]
    unfold colorClasses
    rw [emit_single_self _ _ _ hv]
    simp [hnm]
  · rw [toTailwindSingleTextAlign]
    unfold textAlignClasses
    rw [emit_single_self _ _ _ hv]
  · rw [toTailwindSingleDecorationLine]
    unfold decorationLineClasses
    rw [emit_single_self _ _ _ hv]
    simp [hdl1, hdl2, hdl3, hnone]
  · rw [toTailwindSingleDecorationStyle]
    unfold decorationStyleClasses
    rw [emit_single_self _ _ _ hv]
    simp [hds1, hds2]
  · rw [toTailwindSingleSkipInk]
    unfold skipInkClasses
    rw [emit_single_self _ _ _ hv]
    simp [hauto, hnone]
  · rw [toTailwindSingleThickness]
    unfold thicknessClasses
    rw [emit_single_self _ _ _ hv]
    simp [hauto, hth1, hth2, hth3, hth4, hth5, hth6]
  · rw [toTailwindSingleUnderlineOffset]
    unfold underlineOffsetClasses
    rw [emit_single_self _ _ _ hv]
    simp [hauto]
  · rw [toTailwindSingleUnderlinePosition]
    unfold underlinePositionClasses
    rw [emit_single_self _ _ _ hv]
    simp [hauto, hup]
  · rw [toTailwindSingleFontSize]
    unfold fontSizeClasses
    rw [emit_single_self _ _ _ hv]
    simp [hfs]
  · rw [toTailwindSingleFontWeight]
    unfold fontWeightClasses
    rw [emit_single_self _ _ _ hv]
    simp [hfw]
  · rw [toTailwindSingleLineHeight]
    unfold lineHeightClasses
    rw [emit_single_self _ _ _ hv]
    simp [hlh]
  · rw [toTailwindSingleLetterSpacing]
    unfold letterSpacingClasses
    rw [emit_single_self _ _ _ hv]
    simp [hls]
  · rw [toTailwindSingleFontFamily]
    unfold fontFamilyClasses
    rw [emit_single_self _ _ _ hv]
    simp [hnm]
  · rw [toTailwindSingleFontStyle]
    unfold fontStyleClasses
    rw [emit_single_self _ _ _ hv]
    simp [hit, hnorm]
  · rw [toTailwindSingleMargin, spacingSingleMargin v hv]
    rw [show (("m").data) ++ (("-[").data) = (("m-[").data) from rfl]
  · rw [toTailwindSingleMarginTop, spacingSingleMarginTop v hv]
    rw [show (("mt").data) ++ (("-[").data) = (("mt-[").data) from rfl]
  · rw [toTailwindSingleMarginBottom, spacingSingleMarginBottom v hv]
    rw [show (("mb").data) ++ (("-[").data) = (("mb-[").data) from rfl]
  · rw [toTailwindSingleMarginLeft, spacingSingleMarginLeft v hv]
    rw [show (("ml").data) ++ (("-[").data) = (("ml-[").data) from rfl]
  · rw [toTailwindSingleMarginRight, spacingSingleMarginRight v hv]
    rw [show (("mr").data) ++ (("-[").data) = (("mr-[").data) from rfl]
  · rw [toTailwindSinglePadding, spacingSinglePadding v hv]
    rw [show (("p").data) ++ (("-[").data) = (("p-[").data) from rfl]
  · rw [toTailwindSinglePaddingTop, spacingSinglePaddingTop v hv]
    rw [show (("pt").data) ++ (("-[").data) = (("pt-[").data) from rfl]
  · rw [toTailwindSinglePaddingBottom, spacingSinglePaddingBottom v hv]
    rw [show (("pb").data) ++ (("-[").data) = (("pb-[").data) from rfl]
  · rw [toTailwindSinglePaddingLeft, spacingSinglePaddingLeft v hv]
    rw [show (("pl").data) ++ (("-[").data) = (("pl-[").data) from rfl]
  · rw [toTailwindSinglePaddingRight, spacingSinglePaddingRight v hv]
    rw [show (("pr").data) ++ (("-[").data) = (("pr-[").data) from rfl]
  · rw [toTailwindSingleWidth]
    unfold widthClasses
    rw [emit_single_self _ _ _ hv]
  · rw [toTailwindSingleHeight]
    unfold heightClasses
    rw [emit_single_self _ _ _ hv]
  · rw [toTailwindSingleRadius]
    unfold radiusClasses
    rw [emit_single_self _ _ _ hv]
    simp [hth5, hbr2]
  · rw [toTailwindSingleBorder, borderClasses_single v hv]
    simp only [borderOne]
    rw [jsTrim_nonws v hws, jsSplitWs_nonws v hv hws]
    simp only [List.getD_cons_zero, List.getD_cons_succ, List.getD_nil,
      List.length_cons, List.length_nil, Nat.reduceAdd]
    simp [hv, h0, h0px, hth1, hrem]
  · rw [toTailwindSingleBorder]
    rw [show ((("1px ").data) ++ v) = ( '1' :: 'p' :: 'x' :: ' ' :: v)
      from rfl]
    rw [borderClasses_single _ (by simp)]
    simp only [borderOne]
    rw [jsTrim_onepx v hv hws, jsSplitWs_onepx v hv hws]
    simp only [List.getD_cons_zero, List.getD_cons_succ, List.getD_nil,
      List.length_cons, List.length_nil, Nat.reduceAdd]
    simp [hv, hnone]
  · rw [toTailwindSingleBg]
    unfold bgClasses
    rw [emit_single_self _ _ _ hv]
    simp [hnm]
  · rw [toTailwindSingleOpacity]
    unfold opacityClasses
    rw [emit_single_self _ _ _ hv]
  · rw [toTailwindSingleShadow]
    unfold shadowClasses
    rw [emit_single_self _ _ _ hv]

/-- C9 (counterexample): not every unknown value degrades to a bracket
form.  The unknown `text-align` keyword `banana` is emitted verbatim as
`text-banana` — no bracket at all — and the unknown border style token
`banana` in `border: 1px banana` is emitted verbatim as
`border-banana`. -/
theorem mapper_fallback_counterexample :
    toTailwind [((("text-align").data), (("banana").data))] =
        [(("text-banana").data)] ∧
      (∀ s ∈ toTailwind [((("text-align").data), (("banana").data))],
        ('[') ∉ s ∧ (']') ∉ s) ∧
      toTailwind [((("border").data), (("1px banana").data))] =
        [(("border").data), (("border-banana").data)] := by
  refine ⟨by decide, by decide, by decide⟩

theorem mapper_fallback_bracket_witness :
    toTailwind [((("color").data), (("37vh").data))] =
        [(("text-[37vh]").data)] ∧
      toTailwind [((("text-align").data), (("37vh").data))] =
        [(("text-37vh").data)] := by
  have h := mapper_fallback_bracket ((("37vh").data)) (by decide) (by decide)
    (by decide) (by decide) (by decide) (by decide) (by decide) (by decide)
    (by decide) (by decide) (by decide) (by decide) (by decide) (by decide)
    (by decide) (by decide) (by decide) (by decide) (by decide) (by decide)
    (by decide) (by decide) (by decide) (by decide) (by decide) (by decide)
    (by decide)
  exact ⟨h.1, h.2.1⟩
